import Mathlib

/-! live2d-driver

A shallow embedding of the four stateful parts of the repository:

* `FaceDetection` : the detection loop of `frontend/src/faceDetection.js`;
* `Tracking`      : the Pinia store of `frontend/src/stores/tracking.js`;
* `App`           : the Pinia store of `frontend/src/stores/app.js`;
* `Host`          : the Electron main process of `web/electron/main.js`.

JavaScript numbers are binary64 values, each given by its exact rational
value, and every arithmetic operation rounds its exact result to binary64
(namespace `JS`); asynchronous code is cut at its `await` points into
separate steps, and everything the platform decides (whether a stream can be
acquired, whether `send` raises, when a socket event or a timer fires) is an
explicit argument or event.
-/

/-! ## JavaScript numbers -/

namespace JS

/-- A JavaScript number: a finite binary64 value given by its exact rational
value, or one of the three values that are not finite. The sign of zero is
not kept: nothing below tells the two zeroes apart. -/
inductive JSNumber
  | fin (q : ℚ)
  | posInf
  | negInf
  | nan
  deriving DecidableEq, Repr

/-- The integer nearest to `a`, the even one of the two on a tie. -/
def roundHalfEven (a : ℚ) : ℤ :=
  if a - ⌊a⌋ < 1 / 2 then ⌊a⌋
  else if 1 / 2 < a - ⌊a⌋ then ⌊a⌋ + 1
  else if ⌊a⌋ % 2 = 0 then ⌊a⌋ else ⌊a⌋ + 1

/-- The binary exponent that fixes the spacing of binary64 values around the
magnitude `a`: that of its power of two, and -1022 throughout the subnormal
range, zero included. -/
def binade (a : ℚ) : ℤ := if a = 0 then -1022 else max (Int.log 2 a) (-1022)

/-- The spacing of binary64 values around the magnitude `a` (53 significant bits). -/
def ulp (a : ℚ) : ℚ := 2 ^ (binade a - 52)

/-- The magnitude `a` rounded to the binary64 grid, before the overflow test. -/
def roundMagnitude (a : ℚ) : ℚ := roundHalfEven (a / ulp a) * ulp a

/-- The binary64 value of an exact result: round to nearest, ties to even, and
overflow to an infinity once the rounded magnitude reaches `2^1024`. -/
def toBinary64 (q : ℚ) : JSNumber :=
  if (2 : ℚ) ^ 1024 ≤ roundMagnitude |q| then (if q < 0 then .negInf else .posInf)
  else if q < 0 then .fin (-roundMagnitude |q|)
  else .fin (roundMagnitude |q|)

/-- The function `Math.abs`. -/
def jsAbs : JSNumber → JSNumber
  | .fin q => .fin |q|
  | .posInf => .posInf
  | .negInf => .posInf
  | .nan => .nan

/-- The unary operator `-`. -/
def jsNeg : JSNumber → JSNumber
  | .fin q => .fin (-q)
  | .posInf => .negInf
  | .negInf => .posInf
  | .nan => .nan

/-- The operator `+`. -/
def jsAdd : JSNumber → JSNumber → JSNumber
  | .nan, _ => .nan
  | _, .nan => .nan
  | .posInf, .negInf => .nan
  | .negInf, .posInf => .nan
  | .posInf, _ => .posInf
  | _, .posInf => .posInf
  | .negInf, _ => .negInf
  | _, .negInf => .negInf
  | .fin a, .fin b => toBinary64 (a + b)

/-- The operator `-`. -/
def jsSub (a b : JSNumber) : JSNumber := jsAdd a (jsNeg b)

/-- The operator `/`; a zero divisor is the positive zero. -/
def jsDiv : JSNumber → JSNumber → JSNumber
  | .nan, _ => .nan
  | _, .nan => .nan
  | .posInf, .fin b => if b < 0 then .negInf else .posInf
  | .negInf, .fin b => if b < 0 then .posInf else .negInf
  | .fin _, .posInf => .fin 0
  | .fin _, .negInf => .fin 0
  | .fin a, .fin b =>
    if b = 0 then (if a = 0 then .nan else if 0 < a then .posInf else .negInf)
    else toBinary64 (a / b)
  | _, _ => .nan

/-- Whether the decimal `s * 10^p` reads back as the binary64 value `x`. -/
def readsBack (x : ℚ) (s p : ℕ) : Bool :=
  decide (toBinary64 ((s : ℚ) * 10 ^ p) = .fin x)

/-- The `k`-digit decimal `s * 10^(n - k)` nearest to `x` among those that read
back as `x`, if there is one; `n` is the number of digits of the integer part
of `x`. -/
def shortestWith (x : ℚ) (n k : ℕ) : Option ℕ :=
  let lo := ⌊x / 10 ^ (n - k)⌋₊
  let okLo := readsBack x lo (n - k)
  let okHi := readsBack x (lo + 1) (n - k)
  if okLo && okHi then
    (if x - lo * 10 ^ (n - k) < (lo + 1) * 10 ^ (n - k) - x then some lo
     else if (lo + 1) * 10 ^ (n - k) - x < x - lo * 10 ^ (n - k) then some (lo + 1)
     else if lo % 2 = 0 then some lo else some (lo + 1))
  else if okLo then some lo
  else if okHi then some (lo + 1)
  else none

/-- The shortest digits for `x`: the first count `k` from 1 to 17 that has a
decimal reading back as `x`, with that decimal. -/
def shortestDigits (x : ℚ) (n : ℕ) : ℕ × ℕ :=
  match (List.range 17).findSome?
      (fun i => (shortestWith x n (i + 1)).map (fun s => (i + 1, s))) with
  | some r => r
  | none => (17, ⌊x / 10 ^ (n - 17)⌋₊)

/-- The digits `d.ddd` of a significand: a point after the first digit when
there is more than one. -/
def pointAfterFirst (ds : List Char) : String :=
  match ds with
  | [] => ""
  | [d] => String.mk [d]
  | d :: rest => String.mk (d :: '.' :: rest)

/-- The conversion `Number::toString` for a binary64 value `x` of at least `10^21`: the
shortest decimal that reads back as `x`, in exponent form. -/
def numberToString (x : ℚ) : String :=
  let n := Nat.log 10 ⌊x⌋₊ + 1
  let r := shortestDigits x n
  if r.2 = 10 ^ r.1 then "1e+" ++ toString n
  else pointAfterFirst (Nat.toDigits 10 r.2) ++ "e+" ++ toString (n - 1)

/-- The integer `n` of `Number.prototype.toFixed(3)` for a non-negative `x`:
the one with `n / 1000` nearest to `x`, the larger one on a tie. -/
def roundThousandths (x : ℚ) : ℕ := ⌊x * 1000 + 1 / 2⌋.toNat

/-- Three decimal digits of a number below 1000, with leading zeroes. -/
def pad3 (n : ℕ) : String :=
  String.mk [Nat.digitChar (n / 100 % 10), Nat.digitChar (n / 10 % 10), Nat.digitChar (n % 10)]

/-- The digits of `n` with a point before the last three (steps 11.c-11.d of
`toFixed` for three fraction digits). -/
def fixedDigits (n : ℕ) : String :=
  toString (n / 1000) ++ "." ++ pad3 (n % 1000)

/-- The method `Number.prototype.toFixed(3)` as ECMAScript defines it, on the exact value
of the binary64 number. -/
def toFixed3 : JSNumber → String
  | .nan => "NaN"
  | .posInf => "Infinity"
  | .negInf => "-Infinity"
  | .fin x =>
    let sign := if x < 0 then "-" else ""
    if (10 : ℚ) ^ 21 ≤ |x| then sign ++ numberToString |x|
    else sign ++ fixedDigits (roundThousandths |x|)

end JS


/-! ## Detection loop (`faceDetection.js`) -/

namespace FaceDetection

/-- A landmark or corner as the face model reports it: `[x, y]`. -/
abbrev Point := ℚ × ℚ

/-- One entry of the array resolved by `model.estimateFaces`. -/
structure Prediction where
  topLeft : Point
  bottomRight : Point
  landmarks : List Point
  deriving DecidableEq, Repr

/-- The object handed to the result callback (lines 36-42). -/
structure DetectionResult where
  x : ℚ
  y : ℚ
  width : JS.JSNumber
  height : JS.JSNumber
  landmarks : List Point
  deriving DecidableEq, Repr

/-- How one `model.estimateFaces` call settles. -/
inductive Inference
  | predictions (ps : List Prediction)
  | rejected
  deriving DecidableEq, Repr

/-- One invocation of the result callback: which callback, with which argument
(`none` is `callback(null)`). -/
structure Delivery where
  callback : Nat
  result : Option DetectionResult
  deriving DecidableEq, Repr

/-- Module state of `faceDetection.js` (lines 4-7) together with the part of the
browser the loop talks to: the `requestAnimationFrame` handles still pending,
the number of `estimateFaces` calls not yet settled, and the next handle the
browser will hand out. Callbacks are named by a number. -/
structure LoopState where
  model : Bool
  isRunning : Bool
  callback : Option Nat
  animationFrameId : Option Nat
  scheduled : List Nat
  inFlight : Nat
  nextHandle : Nat
  deriving DecidableEq, Repr

/-- State right after the module is loaded; handles start at 1 because
`requestAnimationFrame` never returns 0. -/
def initial : LoopState :=
  { model := false, isRunning := false, callback := none, animationFrameId := none,
    scheduled := [], inFlight := 0, nextHandle := 1 }

/-- Settling of `init()` (lines 9-18): `model` is assigned only when loading succeeded. -/
def init (ok : Bool) (s : LoopState) : LoopState :=
  if ok then { s with model := true } else s

/-- The synchronous head of `detectFrame` (lines 29-32): return when stopped,
otherwise issue one `estimateFaces` call and suspend. -/
def detectFrame (s : LoopState) : LoopState :=
  if !s.isRunning then s else { s with inFlight := s.inFlight + 1 }

/-- The argument built from the first prediction (lines 35-42). -/
def toResult (face : Prediction) : DetectionResult :=
  { x := face.topLeft.1, y := face.topLeft.2,
    width := JS.jsSub (.fin face.bottomRight.1) (.fin face.topLeft.1),
    height := JS.jsSub (.fin face.bottomRight.2) (.fin face.topLeft.2),
    landmarks := face.landmarks }

/-- Calling the module-level `callback` with an argument; when it is still `null`
the call raises and the surrounding `catch` swallows it. -/
def invoke (cb : Option Nat) (arg : Option DetectionResult) : List Delivery :=
  match cb with
  | some c => [{ callback := c, result := arg }]
  | none => []

/-- The callback invocations of lines 34-48 for one settled inference. -/
def deliver (cb : Option Nat) (r : Inference) : List Delivery :=
  match r with
  | .predictions (face :: _) => invoke cb (some (toResult face))
  | .predictions [] => invoke cb none
  | .rejected => []

/-- The tail of `detectFrame` after its `await` (lines 34-50): deliver, then
request the next animation frame unconditionally and remember its handle. -/
def resume (r : Inference) (s : LoopState) : LoopState × List Delivery :=
  ({ s with inFlight := s.inFlight - 1,
            animationFrameId := some s.nextHandle,
            scheduled := s.scheduled ++ [s.nextHandle],
            nextHandle := s.nextHandle + 1 },
   deliver s.callback r)

/-- Body of `startDetection` (lines 20-55) with its return value. -/
def startDetection (onFaceDetected : Nat) (s : LoopState) : LoopState × Bool :=
  if !s.model || s.isRunning then (s, false)
  else (detectFrame { s with isRunning := true, callback := some onFaceDetected }, true)

/-- Body of `stopDetection` (lines 57-63); a handle is truthy when it is not 0. -/
def stopDetection (s : LoopState) : LoopState :=
  let s := { s with isRunning := false }
  match s.animationFrameId with
  | some h =>
    if h ≠ 0 then { s with scheduled := s.scheduled.filter (· ≠ h), animationFrameId := none }
    else s
  | none => s

/-- What can happen to the loop: the two exported calls, the settling of
`init()`, the browser running a pending animation-frame callback, and an
outstanding `estimateFaces` call settling. -/
inductive Event
  | init (ok : Bool)
  | startDetection (onFaceDetected : Nat)
  | stopDetection
  | frame (handle : Nat)
  | resolved (r : Inference)
  deriving DecidableEq, Repr

/-- One step of the loop with the callback invocations it performs. A frame
event for a handle that is not pending, and a settling when nothing is in
flight, cannot occur and leave the state alone. -/
def step (s : LoopState) : Event → LoopState × List Delivery
  | .init ok => (init ok s, [])
  | .startDetection cb => ((startDetection cb s).1, [])
  | .stopDetection => (stopDetection s, [])
  | .frame h =>
    if h ∈ s.scheduled then (detectFrame { s with scheduled := s.scheduled.filter (· ≠ h) }, [])
    else (s, [])
  | .resolved r => if s.inFlight = 0 then (s, []) else resume r s

/-- Run a sequence of events, collecting every callback invocation in order. -/
def run (s : LoopState) : List Event → LoopState × List Delivery
  | [] => (s, [])
  | e :: es =>
    let r := step s e
    let rest := run r.1 es
    (rest.1, r.2 ++ rest.2)

end FaceDetection

/-! ## Tracking store (`stores/tracking.js`) -/

namespace Tracking

open JS

/-- What a field of `parameters` can hold: the number it starts with, or the
string `toFixed` returns. -/
inductive JSValue
  | num (q : ℚ)
  | str (s : String)
  deriving DecidableEq, Repr

/-- The record `parameters` (lines 9-17). -/
structure Parameters where
  headX : JSValue
  headY : JSValue
  eyeX : JSValue
  eyeY : JSValue
  mouth : JSValue
  eyebrowLeft : JSValue
  eyebrowRight : JSValue
  deriving DecidableEq, Repr

/-- The object literal of lines 9-17 and 29-37. -/
def zeroParameters : Parameters :=
  { headX := .num 0, headY := .num 0, eyeX := .num 0, eyeY := .num 0,
    mouth := .num 0, eyebrowLeft := .num 0, eyebrowRight := .num 0 }

/-- A detection result as the detection loop builds it, each number a finite
binary64 value given by its exact rational value; a missing `landmarks`
property behaves like the empty list (line 51). -/
structure FaceData where
  x : ℚ
  y : ℚ
  width : ℚ
  height : ℚ
  landmarks : List (ℚ × ℚ)
  deriving DecidableEq, Repr

/-- State of the tracking store (lines 4-18). -/
structure TrackingState where
  isRunning : Bool
  fps : ℚ
  faceData : Option FaceData
  cameraAccess : Bool
  parameters : Parameters
  deriving DecidableEq, Repr

/-- The state function of lines 4-18. -/
def initial : TrackingState :=
  { isRunning := false, fps := 0, faceData := none, cameraAccess := false,
    parameters := zeroParameters }

/-- What `updateFaceData` reads from the browser: the viewport size. -/
structure Browser where
  innerWidth : ℕ
  innerHeight : ℕ

/-- How an action ends: normally, or by raising a `TypeError`; either way with
the store as the action left it. -/
inductive Completion
  | normal (s : TrackingState)
  | typeError (s : TrackingState)
  deriving DecidableEq, Repr

/-- The store an action leaves behind. -/
def Completion.state : Completion → TrackingState
  | .normal s => s
  | .typeError s => s

/-- Whether the action raised. -/
def Completion.threw : Completion → Bool
  | .normal _ => false
  | .typeError _ => true

/-- Action `resetParameters` (lines 28-38). -/
def resetParameters (s : TrackingState) : TrackingState :=
  { s with parameters := zeroParameters }

/-- Action `startTracking` (lines 20-23). -/
def startTracking (s : TrackingState) : TrackingState :=
  resetParameters { s with isRunning := true }

/-- Action `stopTracking` (lines 24-27). -/
def stopTracking (s : TrackingState) : TrackingState :=
  resetParameters { s with isRunning := false }

/-- Action `updateFps` (lines 39-41). -/
def updateFps (fps : ℚ) (s : TrackingState) : TrackingState :=
  { s with fps := fps }

/-- The expression `faceData.landmarks[i][1]`: `none` when `landmarks[i]` is `undefined`,
in which case reading its index 1 raises a `TypeError`. -/
def landmarkY (landmarks : List (ℚ × ℚ)) (i : ℕ) : Option ℚ :=
  landmarks[i]?.map Prod.snd

/-- Action `updateFaceData` (lines 42-62), statement by statement, every operation in
binary64. A read of a missing landmark ends the action with the assignments
made so far. -/
def updateFaceData (w : Browser) (faceData : Option FaceData) (s : TrackingState) :
    Completion :=
  let s := { s with faceData := faceData }
  match faceData with
  | none => .normal s
  | some fd =>
    let s := { s with parameters :=
      { s.parameters with headX := .str (toFixed3 (jsDiv (.fin fd.x) (.fin w.innerWidth))) } }
    let s := { s with parameters :=
      { s.parameters with headY := .str (toFixed3 (jsDiv (.fin fd.y) (.fin w.innerHeight))) } }
    if 0 < fd.landmarks.length then
      match landmarkY fd.landmarks 1, landmarkY fd.landmarks 5 with
      | some y1, some y5 =>
        let leftEyeHeight := jsAbs (jsSub (.fin y1) (.fin y5))
        match landmarkY fd.landmarks 2, landmarkY fd.landmarks 4 with
        | some y2, some y4 =>
          let rightEyeHeight := jsAbs (jsSub (.fin y2) (.fin y4))
          let s := { s with parameters :=
            { s.parameters with
              eyeY := .str (toFixed3 (jsDiv (jsAdd leftEyeHeight rightEyeHeight) (.fin 20))) } }
          match landmarkY fd.landmarks 3, landmarkY fd.landmarks 6 with
          | some y3, some y6 =>
            let mouthHeight := jsAbs (jsSub (.fin y3) (.fin y6))
            .normal { s with parameters :=
              { s.parameters with mouth := .str (toFixed3 (jsDiv mouthHeight (.fin 10))) } }
          | _, _ => .typeError s
        | _, _ => .typeError s
      | _, _ => .typeError s
    else .normal s

/-- Everything that can be done to the store. -/
inductive Action
  | startTracking
  | stopTracking
  | resetParameters
  | updateFps (fps : ℚ)
  | updateFaceData (w : Browser) (faceData : Option FaceData)

/-- The store after an action, whether or not the action raised. -/
def apply (s : TrackingState) : Action → TrackingState
  | .startTracking => startTracking s
  | .stopTracking => stopTracking s
  | .resetParameters => resetParameters s
  | .updateFps fps => updateFps fps s
  | .updateFaceData w fd => (updateFaceData w fd s).state

/-- States the store can be in: the initial one and whatever actions lead to,
for every argument the actions can be given. -/
inductive Reachable : TrackingState → Prop
  | initial : Reachable initial
  | step {s : TrackingState} (a : Action) : Reachable s → Reachable (apply s a)

end Tracking

/-! ## The channel, as both the browser and the desktop host see it -/

/-- The four values of `WebSocket.readyState`. -/
inductive ReadyState
  | CONNECTING
  | OPEN
  | CLOSING
  | CLOSED
  deriving DecidableEq, Repr

/-- A position payload `{ x, y, z }`. -/
structure Position where
  x : ℚ
  y : ℚ
  z : ℚ
  deriving DecidableEq, Repr

/-- The command envelopes the two clients write to the channel. -/
inductive Command
  | start_tracking (camera_source : Option String)
  | stop_tracking
  | switch_model (model : String)
  | set_model (path : String)
  | expression (expression : String)
  | position (position : Position)
  deriving DecidableEq, Repr

/-! ## App store (`stores/app.js`) -/

namespace App

/-- The four strings `serverStatus` is ever assigned. -/
inductive ServerStatus
  | disconnected
  | connecting
  | connected
  | error
  deriving DecidableEq, Repr

/-- An entry of `enumerateDevices()`. -/
structure MediaDeviceInfo where
  deviceId : String
  label : String
  kind : String
  deriving DecidableEq, Repr

/-- An entry of `live2dModels`; the store reads only `name`, and a descriptor
may come without a path. -/
structure ModelDescriptor where
  name : String
  path : Option String
  deriving DecidableEq, Repr

/-- A camera stream, named by a number. -/
structure MediaStream where
  id : Nat
  deriving DecidableEq, Repr

/-- The socket object held in `webSocket`, reduced to the property the store reads. -/
structure Socket where
  readyState : ReadyState
  deriving DecidableEq, Repr

/-- The refs of the store (lines 7-19). -/
structure AppState where
  videoDevices : List MediaDeviceInfo
  selectedDevice : Option String
  isTracking : Bool
  isCameraActive : Bool
  isLoading : Bool
  faceDetected : Bool
  live2dModels : List ModelDescriptor
  selectedModel : Option String
  position : Position
  expression : String
  webSocket : Option Socket
  stream : Option MediaStream
  serverStatus : ServerStatus
  deriving DecidableEq, Repr

/-- The initial values of lines 7-19. -/
def initial : AppState :=
  { videoDevices := [], selectedDevice := none, isTracking := false, isCameraActive := false,
    isLoading := false, faceDetected := false, live2dModels := [], selectedModel := none,
    position := { x := 0, y := 0, z := 0 }, expression := "neutral", webSocket := none,
    stream := none, serverStatus := .disconnected }

/-- What the platform decides during one action: the outcome of `getUserMedia`
(`none` when it rejects), of `enumerateDevices`, of the request for the model
list, whether the `WebSocket` constructor raises, and in which ready states
`send` raises. The bundler is taken to define `process.env`, so that reading
the backend address (line 63) succeeds. -/
structure Env where
  getUserMedia : Option MediaStream
  enumerateDevices : Option (List MediaDeviceInfo)
  getModels : Option (List ModelDescriptor)
  constructorThrows : Bool
  sendThrows : ReadyState → Bool

/-- The behaviour of `send` in browsers: it raises only while the socket is
still connecting, and silently discards the data once closing or closed. -/
def browserSend : ReadyState → Bool
  | .CONNECTING => true
  | _ => false

/-- Result of an action: the store afterwards, the commands a `send` call
accepted, the number of sockets constructed, and whether an exception left
the action. -/
structure Outcome where
  state : AppState
  sent : List Command
  opened : Nat
  threw : Bool
  deriving DecidableEq, Repr

/-- An action that touched nothing outside the store. -/
def quiet (s : AppState) : Outcome :=
  { state := s, sent := [], opened := 0, threw := false }

/-- Getter `modelNames` (lines 26-28). -/
def modelNames (s : AppState) : List String :=
  s.live2dModels.map (·.name)

/-- Truthiness of a string-or-null value. -/
def truthy : Option String → Bool
  | some v => v ≠ ""
  | none => false

/-- Action `detectDevices` (lines 31-43). -/
def detectDevices (env : Env) (s : AppState) : AppState :=
  match env.enumerateDevices with
  | some devices =>
    let s := { s with videoDevices := devices.filter (fun d => d.kind = "videoinput") }
    match s.videoDevices with
    | d :: _ => if !truthy s.selectedDevice then { s with selectedDevice := some d.deviceId } else s
    | [] => s
  | none => { s with videoDevices := [] }

/-- Action `setupWebcam` (lines 45-59) with its return value. -/
def setupWebcam (env : Env) (s : AppState) : AppState × Option MediaStream :=
  match env.getUserMedia with
  | some m => ({ s with stream := some m, isCameraActive := true }, some m)
  | none => ({ s with isCameraActive := false }, none)

/-- Action `connectToServer` (lines 61-96) with the number of sockets it constructed. -/
def connectToServer (env : Env) (s : AppState) : AppState × Nat :=
  let s := { s with serverStatus := .connecting }
  if env.constructorThrows then ({ s with serverStatus := .error }, 0)
  else ({ s with webSocket := some { readyState := .CONNECTING } }, 1)

/-- Action `handleServerMessage` argument, by its `type`. -/
inductive ServerMessage
  | face_data (position : Position) (expression : String)
  | models_list (models : List ModelDescriptor)
  | error (message : String)
  | other (type : String)
  deriving DecidableEq, Repr

/-- Action `handleServerMessage` (lines 98-117). -/
def handleServerMessage (data : ServerMessage) (s : AppState) : AppState :=
  match data with
  | .face_data position expression =>
    { s with position := position, expression := expression, faceDetected := true }
  | .models_list models => { s with live2dModels := models }
  | .error _ => s
  | .other _ => s

/-- The call `webSocket.value.send(...)` inside a `try`: `none` when it raises (no socket,
or the socket refuses), otherwise the commands that reached an open socket. -/
def trySend (env : Env) (ws : Option Socket) (c : Command) : Option (List Command) :=
  match ws with
  | none => none
  | some w =>
    if env.sendThrows w.readyState then none
    else if w.readyState = .OPEN then some [c] else some []

/-- The test `webSocket.value && webSocket.value.readyState === WebSocket.OPEN`: the
channel is connected. -/
def isOpen (s : AppState) : Bool :=
  match s.webSocket with
  | some w => decide (w.readyState = .OPEN)
  | none => false

/-- Lines 123-141 of `toggleTracking`: what follows once a stream is at hand. -/
def startWithStream (env : Env) (s : AppState) : Outcome :=
  let r := if !isOpen s then connectToServer env s else (s, 0)
  let s := { r.1 with isLoading := true }
  match trySend env s.webSocket (.start_tracking (some "webcam")) with
  | some msgs =>
    { state := { s with isTracking := true, isLoading := false }, sent := msgs,
      opened := r.2, threw := false }
  | none => { state := { s with isLoading := false }, sent := [], opened := r.2, threw := false }

/-- Lines 143-154 of `toggleTracking`: the stop branch. -/
def stopBranch (env : Env) (s : AppState) : Outcome :=
  match trySend env s.webSocket .stop_tracking with
  | some msgs =>
    { state := { s with isTracking := false, faceDetected := false }, sent := msgs,
      opened := 0, threw := false }
  | none => quiet s

/-- Action `toggleTracking` (lines 119-156), run to completion. -/
def toggleTracking (env : Env) (s : AppState) : Outcome :=
  if !s.isTracking then
    if s.stream.isSome then startWithStream env s
    else
      match setupWebcam env s with
      | (s, some _) => startWithStream env s
      | (s, none) => quiet s
  else stopBranch env s

/-- The part of `toggleTracking` that runs after its `await`, at whatever time
`getUserMedia` settles: the tail of `setupWebcam` and then lines 121-141. -/
def toggleTrackingResumed (env : Env) (s : AppState) : Outcome :=
  match setupWebcam env s with
  | (s, some _) => startWithStream env s
  | (s, none) => quiet s

/-- Action `loadModels` (lines 158-168). -/
def loadModels (env : Env) (s : AppState) : AppState :=
  if 0 < s.live2dModels.length then s
  else
    match env.getModels with
    | some models => { s with live2dModels := models }
    | none => s

/-- The guarded `send` shared by the three switch actions (lines 178-183, 189-194,
200-205): nothing happens unless the socket exists and is open; an open socket
whose `send` raises lets the exception out. -/
def sendIfOpen (env : Env) (s : AppState) (c : Command) : Outcome :=
  match s.webSocket with
  | some w =>
    if w.readyState = .OPEN then
      if env.sendThrows .OPEN then { state := s, sent := [], opened := 0, threw := true }
      else { state := s, sent := [c], opened := 0, threw := false }
    else quiet s
  | none => quiet s

/-- Action `switchModel` (lines 170-184). -/
def switchModel (env : Env) (modelName : String) (s : AppState) : Outcome :=
  if !s.live2dModels.any (fun m => m.name = modelName) then quiet s
  else sendIfOpen env { s with selectedModel := some modelName } (.switch_model modelName)

/-- Action `switchExpression` (lines 186-195). -/
def switchExpression (env : Env) (expr : String) (s : AppState) : Outcome :=
  sendIfOpen env { s with expression := expr } (.expression expr)

/-- Action `switchPosition` (lines 197-206). -/
def switchPosition (env : Env) (pos : Position) (s : AppState) : Outcome :=
  sendIfOpen env { s with position := pos } (.position pos)

/-- Action `cleanup` (lines 213-225); `close()` on a socket that is not closed
leaves it closing. -/
def cleanup (s : AppState) : AppState :=
  let s :=
    match s.webSocket with
    | some w =>
      if w.readyState ≠ .CLOSED then { s with webSocket := some { readyState := .CLOSING } }
      else s
    | none => s
  { s with stream := none, isCameraActive := false, isTracking := false }

/-- The ready state of the socket in `webSocket` changes to `r` when the event
comes from that socket; a socket that was replaced earlier still runs its
handlers but is no longer the one the store holds. -/
def setReadyState (current : Bool) (r : ReadyState) (s : AppState) : AppState :=
  match s.webSocket with
  | some _ => if current then { s with webSocket := some { readyState := r } } else s
  | none => s

/-- Everything that can happen to the store: its actions, and the four socket
handlers installed by `connectToServer` (lines 69-91). A message that does not
parse is `none`. -/
inductive Event
  | detectDevices (env : Env)
  | setupWebcam (env : Env)
  | connectToServer (env : Env)
  | toggleTracking (env : Env)
  | toggleTrackingResumed (env : Env)
  | loadModels (env : Env)
  | switchModel (env : Env) (modelName : String)
  | switchExpression (env : Env) (expr : String)
  | switchPosition (env : Env) (pos : Position)
  | cleanup
  | onopen (current : Bool)
  | onmessage (data : Option ServerMessage)
  | onclose (current : Bool)
  | onerror

/-- The store after an event. -/
def next (s : AppState) : Event → AppState
  | .detectDevices env => detectDevices env s
  | .setupWebcam env => (setupWebcam env s).1
  | .connectToServer env => (connectToServer env s).1
  | .toggleTracking env => (toggleTracking env s).state
  | .toggleTrackingResumed env => (toggleTrackingResumed env s).state
  | .loadModels env => loadModels env s
  | .switchModel env n => (switchModel env n s).state
  | .switchExpression env e => (switchExpression env e s).state
  | .switchPosition env p => (switchPosition env p s).state
  | .cleanup => cleanup s
  | .onopen current => { setReadyState current .OPEN s with serverStatus := .connected }
  | .onmessage (some data) => handleServerMessage data s
  | .onmessage none => s
  | .onclose current => { setReadyState current .CLOSED s with serverStatus := .disconnected }
  | .onerror => { s with serverStatus := .error }

/-- States the store can be in: the initial one and whatever events lead to. -/
inductive Reachable : AppState → Prop
  | initial : Reachable initial
  | step {s : AppState} (e : Event) : Reachable s → Reachable (next s e)

end App

/-! ## Desktop host (`electron/main.js`) -/

namespace Host

/-- The functions the host passes to `setTimeout`. -/
inductive TimerCallback
  | connectToPython
  deriving DecidableEq, Repr

/-- A pending `setTimeout`: the instant it is due and what it runs. -/
structure Timer where
  due : Nat
  callback : TimerCallback
  deriving DecidableEq, Repr

/-- The socket object held in `ws`, reduced to the property the host reads. -/
structure Socket where
  readyState : ReadyState
  deriving DecidableEq, Repr

/-- The module variables `pythonProcess` and `ws` (lines 6-8), the pending timers
with the clock in milliseconds, and a record of what the host has done so far:
how many times it called `spawn`, how many sockets it constructed, and the
commands it wrote. A process handle is the number of the `spawn` call that
returned it. -/
structure HostState where
  pythonProcess : Option Nat
  ws : Option Socket
  timers : List Timer
  now : Nat
  spawned : Nat
  connections : Nat
  sent : List Command
  deriving DecidableEq, Repr

/-- The host before `createWindow` has run. -/
def initial : HostState :=
  { pythonProcess := none, ws := none, timers := [], now := 0, spawned := 0,
    connections := 0, sent := [] }

/-- The call `setTimeout(callback, delay)`. -/
def setTimeout (callback : TimerCallback) (delay : Nat) (s : HostState) : HostState :=
  { s with timers := s.timers ++ [{ due := s.now + delay, callback := callback }] }

/-- Function `connectToPython` (lines 60-94): a new socket unless one exists that is not closed. -/
def connectToPython (s : HostState) : HostState :=
  match s.ws with
  | some w =>
    if w.readyState ≠ .CLOSED then s
    else { s with ws := some { readyState := .CONNECTING }, connections := s.connections + 1 }
  | none => { s with ws := some { readyState := .CONNECTING }, connections := s.connections + 1 }

/-- Function `startPythonBackend` (lines 34-58): spawn unless a handle is held, then connect. -/
def startPythonBackend (s : HostState) : HostState :=
  match s.pythonProcess with
  | some _ => s
  | none => connectToPython { s with pythonProcess := some s.spawned, spawned := s.spawned + 1 }

/-- The handler of the process event `close` (lines 49-54), for any exit code. -/
def onProcessClose (_code : Int) (s : HostState) : HostState :=
  setTimeout .connectToPython 1000 { s with pythonProcess := none }

/-- The handler of the socket event `close` (lines 89-93); the socket is closed by then. -/
def onSocketClose (s : HostState) : HostState :=
  let s :=
    match s.ws with
    | some _ => { s with ws := some { readyState := .CLOSED } }
    | none => s
  setTimeout .connectToPython 1000 s

/-- The socket event `open` (lines 65-67): the socket is open, the handler only logs. -/
def onSocketOpen (s : HostState) : HostState :=
  match s.ws with
  | some _ => { s with ws := some { readyState := .OPEN } }
  | none => s

/-- The guard `ws && ws.readyState === WebSocket.OPEN` of both handlers. -/
def isOpen (s : HostState) : Bool :=
  match s.ws with
  | some w => decide (w.readyState = .OPEN)
  | none => false

/-- The handler of `control-tracking` (lines 97-105) with its return value. -/
def controlTracking (isTracking : Bool) (s : HostState) : HostState × Bool :=
  if isOpen s then
    ({ s with sent := s.sent ++ [if isTracking then .start_tracking none else .stop_tracking] },
     true)
  else (s, false)

/-- The handler of `set-model` (lines 107-116) with its return value. -/
def setModel (modelPath : String) (s : HostState) : HostState × Bool :=
  if isOpen s then ({ s with sent := s.sent ++ [.set_model modelPath] }, true)
  else (s, false)

/-- The handler of `window-all-closed` (lines 128-137), as far as the backend goes. -/
def windowAllClosed (s : HostState) : HostState :=
  match s.pythonProcess with
  | some _ => { s with pythonProcess := none }
  | none => s

/-- Run a timer callback. -/
def runCallback (s : HostState) : TimerCallback → HostState
  | .connectToPython => connectToPython s

/-- Let `ms` milliseconds pass: every timer due by then runs, in the order the
timers were set, and is gone afterwards. -/
def elapse (ms : Nat) (s : HostState) : HostState :=
  let now := s.now + ms
  let due := s.timers.filter (fun t => t.due ≤ now)
  let s := { s with now := now, timers := s.timers.filter (fun t => ¬ t.due ≤ now) }
  due.foldl (fun st t => runCallback st t.callback) s

/-- Everything that can happen to the host. -/
inductive Event
  | createWindow
  | processClose (code : Int)
  | socketOpen
  | socketError
  | socketMessage
  | socketClose
  | elapse (ms : Nat)
  | controlTracking (isTracking : Bool)
  | setModel (modelPath : String)
  | windowAllClosed
  deriving DecidableEq, Repr

/-- The host after an event; socket errors are only logged and messages only
forwarded to the window. -/
def step (s : HostState) : Event → HostState
  | .createWindow => startPythonBackend s
  | .processClose code => onProcessClose code s
  | .socketOpen => onSocketOpen s
  | .socketError => s
  | .socketMessage => s
  | .socketClose => onSocketClose s
  | .elapse ms => elapse ms s
  | .controlTracking b => (controlTracking b s).1
  | .setModel p => (setModel p s).1
  | .windowAllClosed => windowAllClosed s

/-- Run a sequence of events. -/
def run (s : HostState) (es : List Event) : HostState :=
  es.foldl step s

end Host

/-! ## Concrete inputs used below -/

namespace FaceDetection

/-- A loop started with callback 7 and stopped while its first inference is
still outstanding. -/
def stoppedInFlight : LoopState :=
  (run initial [.init true, .startDetection 7, .stopDetection]).1

/-- The same loop started again, with callback 8, before that inference has settled. -/
def restartedInFlight : LoopState :=
  (run initial [.init true, .startDetection 7, .stopDetection, .startDetection 8]).1

end FaceDetection

namespace Tracking

/-- A viewport of 3 by 4 pixels. -/
def smallWindow : Browser :=
  { innerWidth := 3, innerHeight := 4 }

/-- A viewport of 1920 by 1080 pixels. -/
def wideWindow : Browser :=
  { innerWidth := 1920, innerHeight := 1080 }

/-- The landmark list of the specification scenario. -/
def scenarioLandmarks : List (ℚ × ℚ) :=
  [(0, 0), (0, 10), (0, 0), (0, 5), (0, 0), (0, 0), (0, 15)]

/-- A face at `(1, 2)` carrying the scenario landmarks. -/
def scenarioFace : FaceData :=
  { x := 1, y := 2, width := 0, height := 0, landmarks := scenarioLandmarks }

/-- A face reported without landmarks. -/
def noLandmarkFace : FaceData :=
  { x := 1, y := 2, width := 0, height := 0, landmarks := [] }

/-- A face with six landmarks, the scenario list without its last point. -/
def sixLandmarkFace : FaceData :=
  { x := 1, y := 2, width := 0, height := 0,
    landmarks := [(0, 0), (0, 10), (0, 0), (0, 5), (0, 0), (0, 0)] }

/-- A face at `x = 72` whose left eye is 0.75 pixels high, whose mouth is 0.375
pixels high and whose other landmarks coincide. -/
def fractionFace : FaceData :=
  { x := 72, y := 0, width := 0, height := 0,
    landmarks := [(0, 0), (0, 3 / 4), (0, 0), (0, 3 / 8), (0, 0), (0, 0), (0, 0)] }

/-- The store after the scenario face has been mapped once from the initial state. -/
def afterScenarioFace : TrackingState :=
  apply initial (.updateFaceData smallWindow (some scenarioFace))

end Tracking

namespace App

/-- A browser in which the camera can be acquired and sockets can be constructed. -/
def browser : Env :=
  { getUserMedia := some { id := 0 }, enumerateDevices := none, getModels := none,
    constructorThrows := false, sendThrows := browserSend }

/-- The same browser without a usable camera. -/
def noCamera : Env :=
  { browser with getUserMedia := none }

/-- A store that is tracking while a fresh socket is still connecting: tracking
was started over an open socket and `connectToServer` was called again. -/
def trackingWhileConnecting : AppState :=
  [Event.toggleTracking browser, .onopen true, .toggleTracking browser,
    .connectToServer browser].foldl next initial

/-- A store that is tracking and holds no socket. -/
def trackingWithoutSocket : AppState :=
  { initial with isTracking := true }

/-- The model list of the specification scenario: `[{name: "A"}, {name: "B"}]`. -/
def twoModels : List ModelDescriptor :=
  [{ name := "A", path := none }, { name := "B", path := none }]

end App

namespace Host

/-- The host right after `createWindow`: backend spawned, socket connecting. -/
def started : HostState :=
  step initial .createWindow

end Host

/-! ## JavaScript numbers: results -/

namespace JS

lemma roundHalfEven_eq (a : ℚ) (m : ℤ) (h : |a - m| < 1 / 2) : roundHalfEven a = m := by
  rw [abs_lt] at h
  obtain ⟨h1, h2⟩ := h
  by_cases hm : (m : ℚ) ≤ a
  · have hf : ⌊a⌋ = m := by
      rw [Int.floor_eq_iff]
      constructor <;> linarith
    unfold roundHalfEven
    rw [hf, if_pos (by linarith)]
  · have hf : ⌊a⌋ = m - 1 := by
      rw [Int.floor_eq_iff]
      push_cast
      constructor <;> linarith
    unfold roundHalfEven
    rw [hf]
    push_cast
    rw [if_neg (by linarith), if_pos (by linarith)]
    ring

lemma roundHalfEven_error (a : ℚ) : |(roundHalfEven a : ℚ) - a| ≤ 1 / 2 := by
  have h1 := Int.floor_le a
  have h2 := Int.lt_floor_add_one a
  unfold roundHalfEven
  rw [abs_le]
  split_ifs <;> push_cast <;> constructor <;> linarith

lemma binade_eq (a : ℚ) (e : ℤ) (he : -1022 ≤ e) (h1 : (2 : ℚ) ^ e ≤ a)
    (h2 : a < (2 : ℚ) ^ (e + 1)) : binade a = e := by
  have hpos : 0 < a := lt_of_lt_of_le (by positivity) h1
  have hle : e ≤ Int.log 2 a := by
    rw [← Int.zpow_le_iff_le_log (by norm_num) hpos]
    exact_mod_cast h1
  have hlt : Int.log 2 a < e + 1 := by
    rw [← Int.lt_zpow_iff_log_lt (by norm_num) hpos]
    exact_mod_cast h2
  unfold binade
  rw [if_neg hpos.ne.symm]
  omega

lemma ulp_pos (a : ℚ) : 0 < ulp a := by
  unfold ulp
  positivity

lemma roundMagnitude_eq (a : ℚ) (e m : ℤ) (he : -1022 ≤ e) (h1 : (2 : ℚ) ^ e ≤ a)
    (h2 : a < (2 : ℚ) ^ (e + 1)) (hm : |a / 2 ^ (e - 52) - m| < 1 / 2) :
    roundMagnitude a = m * 2 ^ (e - 52) := by
  unfold roundMagnitude ulp
  rw [binade_eq a e he h1 h2, roundHalfEven_eq _ m hm]

lemma roundMagnitude_zero : roundMagnitude 0 = 0 := by
  unfold roundMagnitude
  rw [zero_div, roundHalfEven_eq 0 0 (by norm_num)]
  simp

/-- The binary64 value of a positive exact result inside the binade `e`. -/
lemma toBinary64_pos (q : ℚ) (e m : ℤ) (he : -1022 ≤ e) (h1 : (2 : ℚ) ^ e ≤ q)
    (h2 : q < (2 : ℚ) ^ (e + 1)) (hm : |q / 2 ^ (e - 52) - m| < 1 / 2)
    (hfin : (m : ℚ) * 2 ^ (e - 52) < 2 ^ 1024) :
    toBinary64 q = .fin (m * 2 ^ (e - 52)) := by
  have hpos : 0 < q := lt_of_lt_of_le (by positivity) h1
  have habs : |q| = q := abs_of_pos hpos
  unfold toBinary64
  rw [habs, roundMagnitude_eq q e m he h1 h2 hm, if_neg (not_le.mpr hfin),
    if_neg (not_lt.mpr hpos.le)]

/-- The binary64 value of a negative exact result inside the binade `e`. -/
lemma toBinary64_neg (q : ℚ) (e m : ℤ) (he : -1022 ≤ e) (h1 : (2 : ℚ) ^ e ≤ q)
    (h2 : q < (2 : ℚ) ^ (e + 1)) (hm : |q / 2 ^ (e - 52) - m| < 1 / 2)
    (hfin : (m : ℚ) * 2 ^ (e - 52) < 2 ^ 1024) :
    toBinary64 (-q) = .fin (-(m * 2 ^ (e - 52))) := by
  have hpos : 0 < q := lt_of_lt_of_le (by positivity) h1
  have habs : |(-q)| = q := by rw [abs_neg]; exact abs_of_pos hpos
  unfold toBinary64
  rw [habs, roundMagnitude_eq q e m he h1 h2 hm, if_neg (not_le.mpr hfin),
    if_pos (by linarith)]

lemma toBinary64_zero : toBinary64 0 = .fin 0 := by
  unfold toBinary64
  rw [abs_zero, roundMagnitude_zero]
  norm_num

/-- The rounded magnitude lies within half a unit in the last place of the exact one. -/
lemma roundMagnitude_error (a : ℚ) : |roundMagnitude a - a| ≤ ulp a / 2 := by
  have h0 := roundHalfEven_error (a / ulp a)
  have hu := ulp_pos a
  have hrew : roundMagnitude a - a = ((roundHalfEven (a / ulp a) : ℚ) - a / ulp a) * ulp a := by
    unfold roundMagnitude
    field_simp
  rw [hrew, abs_mul, abs_of_pos hu]
  calc |(roundHalfEven (a / ulp a) : ℚ) - a / ulp a| * ulp a
      ≤ 1 / 2 * ulp a := mul_le_mul_of_nonneg_right h0 hu.le
    _ = ulp a / 2 := by ring

/-- A finite binary64 result lies within half a unit in the last place of the
exact result. -/
lemma toBinary64_error (q d : ℚ) (h : toBinary64 q = .fin d) :
    |d - q| ≤ ulp (abs q) / 2 := by
  have herr := roundMagnitude_error (abs q)
  unfold toBinary64 at h
  by_cases hbig : (2 : ℚ) ^ 1024 ≤ roundMagnitude (abs q)
  · rw [if_pos hbig] at h
    split_ifs at h
  · rw [if_neg hbig] at h
    by_cases hneg : q < 0
    · rw [if_pos hneg] at h
      injection h with h
      have hq : abs q = -q := abs_of_neg hneg
      have hrew : d - q = -(roundMagnitude (abs q) - abs q) := by
        rw [← h, hq]; ring
      rw [hrew, abs_neg]
      exact herr
    · rw [if_neg hneg] at h
      injection h with h
      have hq : abs q = q := abs_of_nonneg (not_lt.mp hneg)
      have hrew : d - q = roundMagnitude (abs q) - abs q := by
        rw [← h, hq]
      rw [hrew]
      exact herr

lemma roundThousandths_eq (x : ℚ) (n : ℕ) (h1 : (n : ℚ) ≤ x * 1000 + 1 / 2)
    (h2 : x * 1000 + 1 / 2 < n + 1) : roundThousandths x = n := by
  unfold roundThousandths
  have hfloor : ⌊x * 1000 + 1 / 2⌋ = (n : ℤ) := by
    rw [Int.floor_eq_iff]
    constructor
    · exact_mod_cast h1
    · exact_mod_cast h2
  rw [hfloor]; simp

lemma toFixed3_nonneg (x : ℚ) (n : ℕ) (h0 : 0 ≤ x) (hb : x < 10 ^ 21)
    (h1 : (n : ℚ) ≤ x * 1000 + 1 / 2) (h2 : x * 1000 + 1 / 2 < n + 1) :
    toFixed3 (.fin x) = fixedDigits n := by
  have habs : |x| = x := abs_of_nonneg h0
  simp only [toFixed3, habs, not_lt.mpr h0, not_le.mpr hb, if_false]
  rw [roundThousandths_eq x n h1 h2]
  simp

/-- The rounding `toFixed(3)` performs below `10^21`: the digits are those of the
thousandth nearest to the magnitude. -/
lemma toFixed3_nearest (q : ℚ) (hb : |q| < 10 ^ 21) :
    ∃ n : ℕ, toFixed3 (.fin q) = (if q < 0 then "-" else "") ++ fixedDigits n ∧
      |(n : ℚ) / 1000 - abs q| ≤ 1 / 2000 := by
  refine ⟨roundThousandths |q|, ?_, ?_⟩
  · simp only [toFixed3, not_le.mpr hb, if_false]
  · unfold roundThousandths
    have hnn : (0 : ℚ) ≤ |q| * 1000 + 1 / 2 := by positivity
    have hfl : (0 : ℤ) ≤ ⌊|q| * 1000 + 1 / 2⌋ := Int.floor_nonneg.mpr hnn
    have hcast : ((⌊|q| * 1000 + 1 / 2⌋.toNat : ℕ) : ℚ) = (⌊|q| * 1000 + 1 / 2⌋ : ℚ) := by
      have := Int.toNat_of_nonneg hfl
      exact_mod_cast this
    rw [hcast]
    have hle := Int.floor_le (|q| * 1000 + 1 / 2)
    have hlt := Int.lt_floor_add_one (|q| * 1000 + 1 / 2)
    rw [abs_le]
    constructor <;> linarith

lemma jsDiv_fin (a b : ℚ) (hb : b ≠ 0) : jsDiv (.fin a) (.fin b) = toBinary64 (a / b) := by
  simp [jsDiv, hb]

lemma jsSub_fin (a b : ℚ) : jsSub (.fin a) (.fin b) = toBinary64 (a - b) := by
  simp [jsSub, jsNeg, jsAdd, sub_eq_add_neg]

lemma jsAdd_fin (a b : ℚ) : jsAdd (.fin a) (.fin b) = toBinary64 (a + b) := rfl

/-- A positive value that lies on the binary64 grid is its own binary64 value. -/
lemma toBinary64_exact (q : ℚ) (e m : ℤ) (he : -1022 ≤ e) (h1 : (2 : ℚ) ^ e ≤ q)
    (h2 : q < (2 : ℚ) ^ (e + 1)) (hm : q = m * 2 ^ (e - 52)) (hfin : q < 2 ^ 1024) :
    toBinary64 q = .fin q := by
  have hu : (0 : ℚ) < 2 ^ (e - 52) := by positivity
  have hdiv : q / 2 ^ (e - 52) = m := by
    rw [hm]; field_simp
  have h := toBinary64_pos q e m he h1 h2 (by rw [hdiv]; norm_num) (by rw [← hm]; exact hfin)
  rw [h, ← hm]

/-- The negative of a value on the binary64 grid is its own binary64 value. -/
lemma toBinary64_exact_neg (q : ℚ) (e m : ℤ) (he : -1022 ≤ e) (h1 : (2 : ℚ) ^ e ≤ q)
    (h2 : q < (2 : ℚ) ^ (e + 1)) (hm : q = m * 2 ^ (e - 52)) (hfin : q < 2 ^ 1024) :
    toBinary64 (-q) = .fin (-q) := by
  have hu : (0 : ℚ) < 2 ^ (e - 52) := by positivity
  have hdiv : q / 2 ^ (e - 52) = m := by
    rw [hm]; field_simp
  have h := toBinary64_neg q e m he h1 h2 (by rw [hdiv]; norm_num) (by rw [← hm]; exact hfin)
  rw [h, ← hm]

lemma toBinary64_ten : toBinary64 10 = .fin 10 :=
  toBinary64_exact 10 3 5629499534213120 (by norm_num) (by norm_num) (by norm_num)
    (by norm_num) (by norm_num)

lemma toBinary64_neg_ten : toBinary64 (-10) = .fin (-10) :=
  toBinary64_exact_neg 10 3 5629499534213120 (by norm_num) (by norm_num) (by norm_num)
    (by norm_num) (by norm_num)

lemma toBinary64_one : toBinary64 1 = .fin 1 :=
  toBinary64_exact 1 0 4503599627370496 (by norm_num) (by norm_num) (by norm_num)
    (by norm_num) (by norm_num)

lemma toBinary64_half : toBinary64 (1 / 2) = .fin (1 / 2) :=
  toBinary64_exact (1 / 2) (-1) 4503599627370496 (by norm_num) (by norm_num) (by norm_num)
    (by norm_num) (by norm_num)

lemma toBinary64_three_quarters : toBinary64 (3 / 4) = .fin (3 / 4) :=
  toBinary64_exact (3 / 4) (-1) 6755399441055744 (by norm_num) (by norm_num) (by norm_num)
    (by norm_num) (by norm_num)

lemma toBinary64_three_eighths : toBinary64 (3 / 8) = .fin (3 / 8) :=
  toBinary64_exact (3 / 8) (-2) 6755399441055744 (by norm_num) (by norm_num) (by norm_num)
    (by norm_num) (by norm_num)

/-- The binary64 value nearest to one third lies below it. -/
lemma toBinary64_third :
    toBinary64 (1 / 3) = .fin (6004799503160661 / 18014398509481984) := by
  rw [toBinary64_pos (1 / 3) (-2) 6004799503160661 (by norm_num) (by norm_num) (by norm_num)
    (by rw [abs_lt]; constructor <;> norm_num) (by norm_num)]
  norm_num

/-- The binary64 value nearest to 0.0375 lies below it. -/
lemma toBinary64_three_eightieths :
    toBinary64 (3 / 80) = .fin (5404319552844595 / 144115188075855872) := by
  rw [toBinary64_pos (3 / 80) (-5) 5404319552844595 (by norm_num) (by norm_num) (by norm_num)
    (by rw [abs_lt]; constructor <;> norm_num) (by norm_num)]
  norm_num

lemma toFixed3_third : toFixed3 (toBinary64 (1 / 3)) = "0.333" := by
  rw [toBinary64_third,
    toFixed3_nonneg _ 333 (by norm_num) (by norm_num) (by norm_num) (by norm_num)]
  decide

lemma toFixed3_three_eightieths : toFixed3 (toBinary64 (3 / 80)) = "0.037" := by
  rw [toBinary64_three_eightieths,
    toFixed3_nonneg _ 37 (by norm_num) (by norm_num) (by norm_num) (by norm_num)]
  decide

lemma toFixed3_half : toFixed3 (.fin (1 / 2)) = "0.500" := by
  rw [toFixed3_nonneg _ 500 (by norm_num) (by norm_num) (by norm_num) (by norm_num)]
  decide

lemma toFixed3_one : toFixed3 (.fin 1) = "1.000" := by
  rw [toFixed3_nonneg _ 1000 (by norm_num) (by norm_num) (by norm_num) (by norm_num)]
  decide

lemma toFixed3_zero : toFixed3 (.fin 0) = "0.000" := by
  rw [toFixed3_nonneg _ 0 (by norm_num) (by norm_num) (by norm_num) (by norm_num)]
  decide

lemma fixedDigits_length (n : ℕ) : 4 ≤ (fixedDigits n).length := by
  simp only [fixedDigits, pad3, String.length_append, String.length_mk, List.length_cons,
    List.length_nil]
  have : (".".length) = 1 := rfl
  omega

lemma numberToString_length (x : ℚ) : 2 ≤ (numberToString x).length := by
  unfold numberToString
  simp only
  split_ifs
  · rw [String.length_append]
    have : ("1e+".length) = 3 := rfl
    omega
  · rw [String.length_append, String.length_append]
    have : ("e+".length) = 2 := rfl
    omega

/-- No output of `toFixed(3)` has fewer than two characters: the strings it can
return are a proper part of all strings. -/
lemma toFixed3_length (x : JSNumber) : 2 ≤ (toFixed3 x).length := by
  cases x with
  | nan => decide
  | posInf => decide
  | negInf => decide
  | fin q =>
    have h1 := numberToString_length |q|
    have h2 := fixedDigits_length (roundThousandths |q|)
    simp only [toFixed3]
    split_ifs <;> rw [String.length_append] <;> omega

end JS

/-! ## Detection loop: results -/

namespace FaceDetection

/-- C1 (the code breaks it). After `startDetection` with callback 7 and a `stopDetection`
issued while the first `estimateFaces` call is outstanding, the loop is
stopped and nothing is scheduled, yet the settling of that call still invokes
callback 7 (with `null` for a frame without faces) and schedules another
frame: lines 34-50 run without looking at `isRunning` again. -/
theorem delivery_after_stopDetection :
    stoppedInFlight.isRunning = false ∧ stoppedInFlight.scheduled = [] ∧
    stoppedInFlight.inFlight = 1 ∧
    (step stoppedInFlight (.resolved (.predictions []))).2
      = [{ callback := 7, result := none }] ∧
    (step stoppedInFlight (.resolved (.predictions []))).1.scheduled = [1] := by
  decide

end FaceDetection

/-! ## Tracking store: results -/

namespace Tracking

open JS

/-- The scenario face from the initial store, evaluated. -/
lemma updateFaceData_scenario :
    updateFaceData smallWindow (some scenarioFace) initial =
      .normal { isRunning := false, fps := 0, faceData := some scenarioFace,
                cameraAccess := false,
                parameters := { headX := .str "0.333", headY := .str "0.500", eyeX := .num 0,
                                eyeY := .str "0.500", mouth := .str "1.000",
                                eyebrowLeft := .num 0, eyebrowRight := .num 0 } } := by
  have hx : toFixed3 (jsDiv (.fin 1) (.fin 3)) = "0.333" := by
    rw [jsDiv_fin _ _ (by norm_num)]
    exact toFixed3_third
  have hy : toFixed3 (jsDiv (.fin 2) (.fin 4)) = "0.500" := by
    rw [jsDiv_fin _ _ (by norm_num), show (2 : ℚ) / 4 = 1 / 2 by norm_num, toBinary64_half]
    exact toFixed3_half
  have hl : jsSub (.fin 10) (.fin 0) = .fin 10 := by
    rw [jsSub_fin, sub_zero, toBinary64_ten]
  have hr : jsSub (.fin 0) (.fin 0) = .fin 0 := by
    rw [jsSub_fin, sub_zero, toBinary64_zero]
  have he : toFixed3 (jsDiv (jsAdd (jsAbs (.fin 10)) (jsAbs (.fin 0))) (.fin 20)) = "0.500" := by
    simp only [jsAbs, abs_zero]
    rw [show |(10 : ℚ)| = 10 by norm_num, jsAdd_fin, add_zero, toBinary64_ten,
      jsDiv_fin _ _ (by norm_num), show (10 : ℚ) / 20 = 1 / 2 by norm_num, toBinary64_half]
    exact toFixed3_half
  have hm : jsSub (.fin 5) (.fin 15) = .fin (-10) := by
    rw [jsSub_fin, show (5 : ℚ) - 15 = -10 by norm_num, toBinary64_neg_ten]
  have hm2 : toFixed3 (jsDiv (jsAbs (.fin (-10))) (.fin 10)) = "1.000" := by
    simp only [jsAbs]
    rw [show |(-10 : ℚ)| = 10 by norm_num, jsDiv_fin _ _ (by norm_num),
      show (10 : ℚ) / 10 = 1 by norm_num, toBinary64_one]
    exact toFixed3_one
  simp only [updateFaceData, scenarioFace, scenarioLandmarks, smallWindow, initial,
    zeroParameters, landmarkY]
  simp [hx, hy, hl, hr, he, hm, hm2]

/-- The face with fractional landmarks in the wide viewport, evaluated: the three
quotients are all 0.0375, whose binary64 value lies below it. -/
lemma updateFaceData_fraction :
    updateFaceData wideWindow (some fractionFace) initial =
      .normal { isRunning := false, fps := 0, faceData := some fractionFace,
                cameraAccess := false,
                parameters := { headX := .str "0.037", headY := .str "0.000", eyeX := .num 0,
                                eyeY := .str "0.037", mouth := .str "0.037",
                                eyebrowLeft := .num 0, eyebrowRight := .num 0 } } := by
  have hx : toFixed3 (jsDiv (.fin 72) (.fin 1920)) = "0.037" := by
    rw [jsDiv_fin _ _ (by norm_num), show (72 : ℚ) / 1920 = 3 / 80 by norm_num]
    exact toFixed3_three_eightieths
  have hy : toFixed3 (jsDiv (.fin 0) (.fin 1080)) = "0.000" := by
    rw [jsDiv_fin _ _ (by norm_num), zero_div, toBinary64_zero]
    exact toFixed3_zero
  have hl : jsSub (.fin (3 / 4)) (.fin 0) = .fin (3 / 4) := by
    rw [jsSub_fin, sub_zero, toBinary64_three_quarters]
  have hr : jsSub (.fin 0) (.fin 0) = .fin 0 := by
    rw [jsSub_fin, sub_zero, toBinary64_zero]
  have he : toFixed3 (jsDiv (jsAdd (jsAbs (.fin (3 / 4))) (jsAbs (.fin 0))) (.fin 20))
      = "0.037" := by
    simp only [jsAbs, abs_zero]
    rw [show |(3 : ℚ) / 4| = 3 / 4 by norm_num [abs_of_nonneg], jsAdd_fin, add_zero,
      toBinary64_three_quarters, jsDiv_fin _ _ (by norm_num),
      show (3 : ℚ) / 4 / 20 = 3 / 80 by norm_num]
    exact toFixed3_three_eightieths
  have hm : jsSub (.fin (3 / 8)) (.fin 0) = .fin (3 / 8) := by
    rw [jsSub_fin, sub_zero, toBinary64_three_eighths]
  have hm2 : toFixed3 (jsDiv (jsAbs (.fin (3 / 8))) (.fin 10)) = "0.037" := by
    simp only [jsAbs]
    rw [show |(3 : ℚ) / 8| = 3 / 8 by norm_num [abs_of_nonneg], jsDiv_fin _ _ (by norm_num),
      show (3 : ℚ) / 8 / 10 = 3 / 80 by norm_num]
    exact toFixed3_three_eightieths
  simp only [updateFaceData, fractionFace, wideWindow, initial, zeroParameters, landmarkY]
  simp [hx, hy, hl, hr, he, hm, hm2]

lemma afterScenarioFace_eq :
    afterScenarioFace =
      { isRunning := false, fps := 0, faceData := some scenarioFace, cameraAccess := false,
        parameters := { headX := .str "0.333", headY := .str "0.500", eyeX := .num 0,
                        eyeY := .str "0.500", mouth := .str "1.000",
                        eyebrowLeft := .num 0, eyebrowRight := .num 0 } } := by
  simp only [afterScenarioFace, apply, updateFaceData_scenario, Completion.state]

/-- With seven or more landmarks every index the mapper reads is present. -/
lemma landmarkY_get (l : List (ℚ × ℚ)) (i : ℕ) (h : i < l.length) :
    landmarkY l i = some (l.get ⟨i, h⟩).2 := by
  simp [landmarkY, List.getElem?_eq_getElem h]

/-- C4 (counterexample). After the scenario face has been mapped, `updateFaceData(null)`
leaves `headX`, `eyeY` and `mouth` at the strings computed for that face:
the parameters are not the all-zero vector. -/
theorem updateFaceData_null_not_zero :
    (updateFaceData smallWindow none afterScenarioFace).state.parameters.headX = .str "0.333" ∧
    (updateFaceData smallWindow none afterScenarioFace).state.parameters.eyeY = .str "0.500" ∧
    (updateFaceData smallWindow none afterScenarioFace).state.parameters.mouth = .str "1.000" ∧
    (updateFaceData smallWindow none afterScenarioFace).state.parameters ≠ zeroParameters := by
  rw [afterScenarioFace_eq]
  simp [updateFaceData, Completion.state, zeroParameters]

/-- C4 (as amended). From every store, `updateFaceData(null)` completes normally, stores
`null` in `faceData` and leaves `parameters` exactly as it was; they are the
all-zero vector afterwards precisely when they were before. -/
theorem updateFaceData_null (w : Browser) (s : TrackingState) :
    updateFaceData w none s = .normal { s with faceData := none } ∧
    (updateFaceData w none s).state.parameters = s.parameters ∧
    ((updateFaceData w none s).state.parameters = zeroParameters ↔
      s.parameters = zeroParameters) := by
  simp [updateFaceData, Completion.state]

/-- C5 (counterexample). For the scenario landmarks the mapper stores the strings
`"0.500"` and `"1.000"`, not the numbers 0.5 and 1; and for an eye 0.75 pixels
high and a mouth 0.375 pixels high it stores `"0.037"` twice, which is not the
quotient 0.0375 either. -/
theorem updateFaceData_scenario_strings :
    (updateFaceData smallWindow (some scenarioFace) initial).state.parameters.eyeY
      = .str "0.500" ∧
    (updateFaceData smallWindow (some scenarioFace) initial).state.parameters.mouth
      = .str "1.000" ∧
    (updateFaceData smallWindow (some scenarioFace) initial).state.parameters.eyeY
      ≠ .num (1 / 2) ∧
    (updateFaceData smallWindow (some scenarioFace) initial).state.parameters.mouth
      ≠ .num 1 ∧
    (updateFaceData wideWindow (some fractionFace) initial).state.parameters.eyeY
      = .str "0.037" ∧
    (updateFaceData wideWindow (some fractionFace) initial).state.parameters.mouth
      = .str "0.037" := by
  rw [updateFaceData_scenario, updateFaceData_fraction]
  exact ⟨rfl, rfl, by simp [Completion.state], by simp [Completion.state], rfl, rfl⟩

/-- C5 (as amended). For every detection result with at least seven landmarks
`updateFaceData` completes normally and sets `eyeY` to the string
`toFixed(3)` returns for `(|l[1].y - l[5].y| + |l[2].y - l[4].y|) / 20` and
`mouth` to the string it returns for `|l[3].y - l[6].y| / 10`, every
difference, sum and quotient being the binary64 one. -/
theorem updateFaceData_landmarks (w : Browser) (fd : FaceData) (s : TrackingState)
    (h : 7 ≤ fd.landmarks.length) :
    ∃ t, updateFaceData w (some fd) s = .normal t ∧
      t.parameters.eyeY = .str (toFixed3 (jsDiv
        (jsAdd
          (jsAbs (jsSub (.fin (fd.landmarks.get ⟨1, by omega⟩).2)
            (.fin (fd.landmarks.get ⟨5, by omega⟩).2)))
          (jsAbs (jsSub (.fin (fd.landmarks.get ⟨2, by omega⟩).2)
            (.fin (fd.landmarks.get ⟨4, by omega⟩).2))))
        (.fin 20))) ∧
      t.parameters.mouth = .str (toFixed3 (jsDiv
        (jsAbs (jsSub (.fin (fd.landmarks.get ⟨3, by omega⟩).2)
          (.fin (fd.landmarks.get ⟨6, by omega⟩).2)))
        (.fin 10))) := by
  have hpos : 0 < fd.landmarks.length := by omega
  simp only [updateFaceData, hpos, if_true,
    landmarkY_get fd.landmarks 1 (by omega), landmarkY_get fd.landmarks 2 (by omega),
    landmarkY_get fd.landmarks 3 (by omega), landmarkY_get fd.landmarks 4 (by omega),
    landmarkY_get fd.landmarks 5 (by omega), landmarkY_get fd.landmarks 6 (by omega)]
  exact ⟨_, rfl, rfl, rfl⟩

/-- C5 (witness). The scenario face has seven landmarks. -/
theorem updateFaceData_landmarks_witness :
    7 ≤ scenarioFace.landmarks.length ∧
    ∃ t, updateFaceData smallWindow (some scenarioFace) initial = .normal t ∧
      t.parameters.eyeY = .str (toFixed3 (jsDiv
        (jsAdd
          (jsAbs (jsSub (.fin (scenarioFace.landmarks.get ⟨1, by decide⟩).2)
            (.fin (scenarioFace.landmarks.get ⟨5, by decide⟩).2)))
          (jsAbs (jsSub (.fin (scenarioFace.landmarks.get ⟨2, by decide⟩).2)
            (.fin (scenarioFace.landmarks.get ⟨4, by decide⟩).2))))
        (.fin 20))) ∧
      t.parameters.mouth = .str (toFixed3 (jsDiv
        (jsAbs (jsSub (.fin (scenarioFace.landmarks.get ⟨3, by decide⟩).2)
          (.fin (scenarioFace.landmarks.get ⟨6, by decide⟩).2)))
        (.fin 10))) :=
  ⟨by decide, updateFaceData_landmarks smallWindow scenarioFace initial (by decide)⟩

/-- C6 (counterexample). For `x = 1` in a viewport 3 pixels wide `headX` is the string
`"0.333"`: neither the quotient `1/3` nor, once read back as a number, equal
to it; and for `x = 72` in a viewport 1920 pixels wide it is `"0.037"`, while
the quotient is 0.0375. -/
theorem updateFaceData_headX_rounded :
    (updateFaceData smallWindow (some scenarioFace) initial).state.parameters.headX
      = .str "0.333" ∧
    (updateFaceData smallWindow (some scenarioFace) initial).state.parameters.headX
      ≠ .num (scenarioFace.x / smallWindow.innerWidth) ∧
    (333 : ℚ) / 1000 ≠ scenarioFace.x / smallWindow.innerWidth ∧
    (updateFaceData wideWindow (some fractionFace) initial).state.parameters.headX
      = .str "0.037" ∧
    (37 : ℚ) / 1000 ≠ fractionFace.x / wideWindow.innerWidth := by
  rw [updateFaceData_scenario, updateFaceData_fraction]
  refine ⟨rfl, by simp [Completion.state], ?_, rfl, ?_⟩
  · norm_num [scenarioFace, smallWindow]
  · norm_num [fractionFace, wideWindow]

/-- C6 (as amended). For every detection result and every viewport with non-zero
width and height, `updateFaceData` sets `headX` to the string `toFixed(3)`
returns for the binary64 quotient `x / innerWidth` and `headY` to the one
for `y / innerHeight`, whether or not the landmark part later raises. When
that quotient is finite it lies within half a unit in the last place of the
exact quotient, and below `10^21` in magnitude the string is its sign
followed by the digits of the thousandth nearest to its magnitude: the
value is rounded twice and never clamped. -/
theorem updateFaceData_head (w : Browser) (fd : FaceData) (s : TrackingState)
    (hw : w.innerWidth ≠ 0) (hh : w.innerHeight ≠ 0) :
    (updateFaceData w (some fd) s).state.parameters.headX
      = .str (toFixed3 (toBinary64 (fd.x / w.innerWidth))) ∧
    (updateFaceData w (some fd) s).state.parameters.headY
      = .str (toFixed3 (toBinary64 (fd.y / w.innerHeight))) ∧
    (∀ d : ℚ, toBinary64 (fd.x / w.innerWidth) = .fin d →
      |d - fd.x / w.innerWidth| ≤ ulp (abs (fd.x / w.innerWidth)) / 2 ∧
      (|d| < 10 ^ 21 →
        ∃ n : ℕ, (updateFaceData w (some fd) s).state.parameters.headX
            = .str ((if d < 0 then "-" else "") ++ fixedDigits n) ∧
          |(n : ℚ) / 1000 - abs d| ≤ 1 / 2000)) ∧
    (∀ d : ℚ, toBinary64 (fd.y / w.innerHeight) = .fin d →
      |d - fd.y / w.innerHeight| ≤ ulp (abs (fd.y / w.innerHeight)) / 2 ∧
      (|d| < 10 ^ 21 →
        ∃ n : ℕ, (updateFaceData w (some fd) s).state.parameters.headY
            = .str ((if d < 0 then "-" else "") ++ fixedDigits n) ∧
          |(n : ℚ) / 1000 - abs d| ≤ 1 / 2000)) := by
  have hwq : (w.innerWidth : ℚ) ≠ 0 := by exact_mod_cast hw
  have hhq : (w.innerHeight : ℚ) ≠ 0 := by exact_mod_cast hh
  have hX : (updateFaceData w (some fd) s).state.parameters.headX
      = .str (toFixed3 (toBinary64 (fd.x / w.innerWidth))) := by
    rw [← jsDiv_fin _ _ hwq]
    simp only [updateFaceData]
    split_ifs <;> repeat (first | rfl | split)
  have hY : (updateFaceData w (some fd) s).state.parameters.headY
      = .str (toFixed3 (toBinary64 (fd.y / w.innerHeight))) := by
    rw [← jsDiv_fin _ _ hhq]
    simp only [updateFaceData]
    split_ifs <;> repeat (first | rfl | split)
  refine ⟨hX, hY, fun d hd => ⟨toBinary64_error _ d hd, fun hb => ?_⟩,
    fun d hd => ⟨toBinary64_error _ d hd, fun hb => ?_⟩⟩
  · obtain ⟨n, hn, hdist⟩ := toFixed3_nearest d hb
    exact ⟨n, by rw [hX, hd, hn], hdist⟩
  · obtain ⟨n, hn, hdist⟩ := toFixed3_nearest d hb
    exact ⟨n, by rw [hY, hd, hn], hdist⟩

/-- C6 (witness). The face at `x = 72` in the viewport 1920 pixels wide: the binary64
quotient lies just below 0.0375 and is written as `"0.037"`. -/
theorem updateFaceData_head_witness :
    wideWindow.innerWidth ≠ 0 ∧ wideWindow.innerHeight ≠ 0 ∧
    toBinary64 (fractionFace.x / wideWindow.innerWidth)
      = .fin (5404319552844595 / 144115188075855872) ∧
    (updateFaceData wideWindow (some fractionFace) initial).state.parameters.headX
      = .str (toFixed3 (toBinary64 (fractionFace.x / wideWindow.innerWidth))) ∧
    ∃ n : ℕ, (updateFaceData wideWindow (some fractionFace) initial).state.parameters.headX
        = .str ((if (5404319552844595 / 144115188075855872 : ℚ) < 0 then "-" else "")
            ++ fixedDigits n) ∧
      |(n : ℚ) / 1000 - abs (5404319552844595 / 144115188075855872)| ≤ 1 / 2000 :=
  have hq : toBinary64 (fractionFace.x / wideWindow.innerWidth)
      = .fin (5404319552844595 / 144115188075855872) := by
    rw [show fractionFace.x / (wideWindow.innerWidth : ℚ) = 3 / 80 by
      norm_num [fractionFace, wideWindow]]
    exact toBinary64_three_eightieths
  ⟨by decide, by decide, hq,
    (updateFaceData_head wideWindow fractionFace initial (by decide) (by decide)).1,
    ((updateFaceData_head wideWindow fractionFace initial (by decide) (by decide)).2.2.1
      _ hq).2 (by norm_num [abs_of_nonneg])⟩

/-- C7 (the code breaks it). For every detection result whose landmark list has between
one and six points `updateFaceData` raises a `TypeError`: the guard of line
51 only asks for a non-empty list, and line 53 or line 58 then reads index 1
of a landmark that is not there. -/
theorem updateFaceData_short_landmarks_throw (w : Browser) (fd : FaceData)
    (s : TrackingState) (h0 : 0 < fd.landmarks.length) (h7 : fd.landmarks.length < 7) :
    (updateFaceData w (some fd) s).threw = true := by
  obtain ⟨x, y, wd, ht, l⟩ := fd
  simp only at h0 h7
  rcases l with _ | ⟨p0, _ | ⟨p1, _ | ⟨p2, _ | ⟨p3, _ | ⟨p4, _ | ⟨p5, _ | ⟨p6, l⟩⟩⟩⟩⟩⟩⟩
  · simp at h0
  all_goals first
    | (simp only [List.length_cons] at h7; omega)
    | simp [updateFaceData, landmarkY, Completion.threw]

/-- C7 (witness). Six landmarks: index 6 is missing and the action raises at line 58. -/
theorem updateFaceData_short_landmarks_throw_witness :
    0 < sixLandmarkFace.landmarks.length ∧ sixLandmarkFace.landmarks.length < 7 ∧
    (updateFaceData smallWindow (some sixLandmarkFace) initial).threw = true :=
  ⟨by decide, by decide,
    updateFaceData_short_landmarks_throw smallWindow sixLandmarkFace initial
      (by decide) (by decide)⟩

/-- C8 (counterexample). The same input gives different parameters from two reachable
stores, the initial one and the one that has just mapped the scenario face:
for `null` all zeroes against the strings of the previous face, and for a
face without landmarks an `eyeY` of 0 against the previous `"0.500"`. -/
theorem updateFaceData_depends_on_prior :
    (updateFaceData smallWindow none initial).state.parameters = zeroParameters ∧
    (updateFaceData smallWindow none afterScenarioFace).state.parameters
      ≠ (updateFaceData smallWindow none initial).state.parameters ∧
    (updateFaceData smallWindow (some noLandmarkFace) initial).state.parameters.eyeY
      = .num 0 ∧
    (updateFaceData smallWindow (some noLandmarkFace) afterScenarioFace).state.parameters.eyeY
      = .str "0.500" := by
  rw [afterScenarioFace_eq]
  simp [updateFaceData, Completion.state, zeroParameters, initial, noLandmarkFace]

/-- C8 (as amended). For a detection result with at least seven landmarks the action
overwrites `headX`, `headY`, `eyeY` and `mouth` with values computed from the
result and the viewport alone and never writes the other three fields: from
two prior stores that agree on `eyeX`, `eyebrowLeft` and `eyebrowRight` the
resulting parameters are equal. -/
theorem updateFaceData_pure_on_full_faces (w : Browser) (fd : FaceData)
    (s1 s2 : TrackingState) (h : 7 ≤ fd.landmarks.length)
    (hx : s1.parameters.eyeX = s2.parameters.eyeX)
    (hl : s1.parameters.eyebrowLeft = s2.parameters.eyebrowLeft)
    (hr : s1.parameters.eyebrowRight = s2.parameters.eyebrowRight) :
    (updateFaceData w (some fd) s1).state.parameters
      = (updateFaceData w (some fd) s2).state.parameters := by
  have hpos : 0 < fd.landmarks.length := by omega
  simp only [updateFaceData, hpos, if_true,
    landmarkY_get fd.landmarks 1 (by omega), landmarkY_get fd.landmarks 2 (by omega),
    landmarkY_get fd.landmarks 3 (by omega), landmarkY_get fd.landmarks 4 (by omega),
    landmarkY_get fd.landmarks 5 (by omega), landmarkY_get fd.landmarks 6 (by omega),
    Completion.state, hx, hl, hr]

/-- C8 (witness). The scenario face from the initial store and from the store
that has already mapped it once. -/
theorem updateFaceData_pure_on_full_faces_witness :
    7 ≤ scenarioFace.landmarks.length ∧
    initial.parameters.eyeX = afterScenarioFace.parameters.eyeX ∧
    initial.parameters.eyebrowLeft = afterScenarioFace.parameters.eyebrowLeft ∧
    initial.parameters.eyebrowRight = afterScenarioFace.parameters.eyebrowRight ∧
    (updateFaceData smallWindow (some scenarioFace) initial).state.parameters
      = (updateFaceData smallWindow (some scenarioFace) afterScenarioFace).state.parameters :=
  have hx : initial.parameters.eyeX = afterScenarioFace.parameters.eyeX := by
    rw [afterScenarioFace_eq]; rfl
  have hl : initial.parameters.eyebrowLeft = afterScenarioFace.parameters.eyebrowLeft := by
    rw [afterScenarioFace_eq]; rfl
  have hr : initial.parameters.eyebrowRight = afterScenarioFace.parameters.eyebrowRight := by
    rw [afterScenarioFace_eq]; rfl
  ⟨by decide, hx, hl, hr,
    updateFaceData_pure_on_full_faces smallWindow scenarioFace initial afterScenarioFace
      (by decide) hx hl hr⟩

end Tracking

/-! ## App store: results -/

namespace App

lemma trackingWhileConnecting_eq :
    trackingWhileConnecting =
      { initial with isTracking := true, isCameraActive := true,
                     webSocket := some { readyState := .CONNECTING },
                     stream := some { id := 0 }, serverStatus := .connecting } := by
  decide

/-- C2 (counterexample). Tracking is on and the stop command cannot be sent, once
because the store holds no socket and once, in a reachable store, because the
socket is still connecting and `send` raises: `toggleTracking` leaves
`isTracking` at `true` both times. -/
theorem toggleTracking_stop_failed_stays_tracking :
    trackingWithoutSocket.isTracking = true ∧ trackingWithoutSocket.webSocket = none ∧
    (toggleTracking browser trackingWithoutSocket).state.isTracking = true ∧
    Reachable trackingWhileConnecting ∧
    trackingWhileConnecting.isTracking = true ∧
    trackingWhileConnecting.webSocket = some { readyState := .CONNECTING } ∧
    browser.sendThrows .CONNECTING = true ∧
    (toggleTracking browser trackingWhileConnecting).state.isTracking = true := by
  refine ⟨by decide, by decide, by decide, ?_, by decide, by decide, by decide, by decide⟩
  exact .step (.connectToServer browser) (.step (.toggleTracking browser)
    (.step (.onopen true) (.step (.toggleTracking browser) .initial)))

/-- C2 (as amended). With `isTracking = true`: when the stop command cannot be sent (no
socket, or `send` raises) `toggleTracking` returns without an exception,
sends nothing and leaves the whole store as it was, `isTracking = true`
included; when `send` returns normally `isTracking` and `faceDetected` become
`false`. -/
theorem toggleTracking_stop (env : Env) (s : AppState) (ht : s.isTracking = true) :
    ((s.webSocket = none ∨ ∃ w, s.webSocket = some w ∧ env.sendThrows w.readyState = true) →
      toggleTracking env s = quiet s) ∧
    ((∃ w, s.webSocket = some w ∧ env.sendThrows w.readyState = false) →
      (toggleTracking env s).state.isTracking = false ∧
      (toggleTracking env s).state.faceDetected = false ∧
      (toggleTracking env s).threw = false) := by
  constructor
  · rintro (h | ⟨w, hw, hs⟩)
    · simp [toggleTracking, ht, stopBranch, trySend, h]
    · simp [toggleTracking, ht, stopBranch, trySend, hw, hs]
  · rintro ⟨w, hw, hs⟩
    by_cases ho : w.readyState = .OPEN
    · have hs2 := hs
      rw [ho] at hs2
      simp [toggleTracking, ht, stopBranch, trySend, hw, hs2, ho]
    · simp [toggleTracking, ht, stopBranch, trySend, hw, hs, ho]

/-- C2 (witness). The reachable store that is tracking over a connecting socket. -/
theorem toggleTracking_stop_witness :
    trackingWhileConnecting.isTracking = true ∧
    toggleTracking browser trackingWhileConnecting = quiet trackingWhileConnecting :=
  ⟨by decide,
    (toggleTracking_stop browser trackingWhileConnecting (by decide)).1
      (Or.inr ⟨{ readyState := .CONNECTING }, by decide, by decide⟩)⟩

/-- The guarded `send` does nothing at all while the channel is not connected. -/
lemma sendIfOpen_of_not_open (env : Env) (s : AppState) (c : Command)
    (h : isOpen s = false) : sendIfOpen env s c = quiet s := by
  unfold sendIfOpen
  unfold isOpen at h
  cases hw : s.webSocket with
  | none => rfl
  | some w =>
    rw [hw] at h
    have hne : w.readyState ≠ .OPEN := by simpa using h
    simp [hne]

/-- Lines 123-141 never touch the stream or the camera flag. -/
lemma startWithStream_camera (env : Env) (s : AppState) :
    (startWithStream env s).state.stream = s.stream ∧
    (startWithStream env s).state.isCameraActive = s.isCameraActive := by
  simp only [startWithStream, connectToServer]
  constructor <;> (split <;> split_ifs <;> rfl)

/-- Lines 123-141 never raise. -/
lemma startWithStream_threw (env : Env) (s : AppState) :
    (startWithStream env s).threw = false := by
  simp only [startWithStream]
  split <;> rfl

/-- Every path through `toggleTracking` is inside a `try` or cannot raise. -/
lemma toggleTracking_threw (env : Env) (s : AppState) :
    (toggleTracking env s).threw = false := by
  unfold toggleTracking
  split_ifs
  · exact startWithStream_threw _ _
  · cases hg : env.getUserMedia <;> simp [setupWebcam, hg, quiet, startWithStream_threw]
  · unfold stopBranch
    split <;> rfl

/-- While the channel is not connected, lines 123-141 go through `connectToServer`. -/
lemma startWithStream_status (env : Env) (s : AppState) (h : isOpen s = false) :
    (startWithStream env s).state.serverStatus
      = if env.constructorThrows then .error else .connecting := by
  simp only [startWithStream, connectToServer, h, Bool.not_false, if_true]
  split <;> split_ifs <;> rfl

/-- C3 (counterexample). In the initial store there is no socket and `serverStatus` is
`disconnected`; `toggleTracking`, with a camera at hand, returns with
`serverStatus = connecting`. -/
theorem toggleTracking_start_changes_serverStatus :
    initial.webSocket = none ∧ initial.serverStatus = .disconnected ∧
    (toggleTracking browser initial).threw = false ∧
    (toggleTracking browser initial).state.serverStatus = .connecting := by
  decide

/-- C3 (as amended). While the channel is not connected, `switchModel`, `switchExpression`
and `switchPosition` return without an exception, send nothing and leave
`serverStatus` as it was; `toggleTracking` returns without an exception and
leaves `serverStatus` as it was in its stop branch and when no stream can be
acquired, while in its start branch with a stream it goes through
`connectToServer`, which sets `serverStatus` to `connecting`, or to `error`
when the socket cannot be constructed; in the host, `control-tracking` and
`set-model` return `false` and leave the host state as it was. -/
theorem commands_while_not_connected (env : Env) (s : AppState) (hs : Host.HostState)
    (modelName expr modelPath : String) (pos : Position) (isTracking : Bool)
    (h : isOpen s = false) (hh : Host.isOpen hs = false) :
    ((switchModel env modelName s).threw = false ∧ (switchModel env modelName s).sent = [] ∧
      (switchModel env modelName s).state.serverStatus = s.serverStatus) ∧
    ((switchExpression env expr s).threw = false ∧ (switchExpression env expr s).sent = [] ∧
      (switchExpression env expr s).state.serverStatus = s.serverStatus) ∧
    ((switchPosition env pos s).threw = false ∧ (switchPosition env pos s).sent = [] ∧
      (switchPosition env pos s).state.serverStatus = s.serverStatus) ∧
    (toggleTracking env s).threw = false ∧
    (toggleTracking env s).state.serverStatus
      = (if s.isTracking || (s.stream.isNone && env.getUserMedia.isNone) then s.serverStatus
         else if env.constructorThrows then .error else .connecting) ∧
    Host.controlTracking isTracking hs = (hs, false) ∧
    Host.setModel modelPath hs = (hs, false) := by
  refine ⟨?_, ?_, ?_, ?_, ?_, ?_, ?_⟩
  · unfold switchModel
    split_ifs
    · exact ⟨rfl, rfl, rfl⟩
    · rw [sendIfOpen_of_not_open env _ _ (by simpa [isOpen] using h)]
      exact ⟨rfl, rfl, rfl⟩
  · unfold switchExpression
    rw [sendIfOpen_of_not_open env _ _ (by simpa [isOpen] using h)]
    exact ⟨rfl, rfl, rfl⟩
  · unfold switchPosition
    rw [sendIfOpen_of_not_open env _ _ (by simpa [isOpen] using h)]
    exact ⟨rfl, rfl, rfl⟩
  · exact toggleTracking_threw env s
  · cases ht : s.isTracking
    · cases hst : s.stream with
      | some m =>
        simp only [toggleTracking, ht, hst, Option.isSome_some, Option.isNone_some,
          Bool.not_false, if_true, Bool.false_and, Bool.or_false, Bool.false_eq_true, if_false]
        exact startWithStream_status env s h
      | none =>
        cases hg : env.getUserMedia with
        | some m =>
          simp only [toggleTracking, ht, hst, setupWebcam, hg, Option.isSome_none,
            Option.isNone_none, Option.isNone_some, Bool.not_false, if_true, Bool.and_false,
            Bool.or_false, Bool.false_eq_true, if_false]
          exact startWithStream_status env _ (by simpa [isOpen] using h)
        | none =>
          simp [toggleTracking, ht, hst, setupWebcam, hg, quiet]
    · simp only [toggleTracking, ht, Bool.not_true, Bool.false_eq_true, if_false, stopBranch,
        Bool.true_or, if_true]
      split <;> rfl
  · simp [Host.controlTracking, hh]
  · simp [Host.setModel, hh]

/-- C3 (witness). The initial store and the host before its window exists. -/
theorem commands_while_not_connected_witness :
    isOpen initial = false ∧ Host.isOpen Host.initial = false ∧
    (switchExpression browser "smile" initial).threw = false ∧
    (switchExpression browser "smile" initial).state.serverStatus = initial.serverStatus ∧
    Host.controlTracking true Host.initial = (Host.initial, false) :=
  have h := commands_while_not_connected browser initial Host.initial "A" "smile" "m.json"
    { x := 0, y := 0, z := 0 } true (by decide) (by decide)
  ⟨by decide, by decide, h.2.1.1, h.2.1.2.2, h.2.2.2.2.2.1⟩

/-- The guarded `send` never changes the store. -/
lemma sendIfOpen_state (env : Env) (s : AppState) (c : Command) :
    (sendIfOpen env s c).state = s := by
  unfold sendIfOpen
  split
  · split_ifs <;> rfl
  · rfl

/-- After `setupWebcam` the camera flag is on only together with a stream. -/
lemma setupWebcam_camera (env : Env) (s : AppState) :
    (setupWebcam env s).1.isCameraActive = true → (setupWebcam env s).1.stream.isSome = true := by
  unfold setupWebcam
  cases env.getUserMedia <;> simp

/-- The socket bookkeeping of the handlers leaves stream and camera flag alone. -/
lemma setReadyState_camera (current : Bool) (r : ReadyState) (s : AppState) :
    (setReadyState current r s).stream = s.stream ∧
    (setReadyState current r s).isCameraActive = s.isCameraActive := by
  unfold setReadyState
  split
  · split_ifs <;> exact ⟨rfl, rfl⟩
  · exact ⟨rfl, rfl⟩

/-- In every reachable store the camera flag is on only while a stream is held:
the flag is raised only where the stream is stored (lines 51-52) and the stream
is dropped only where the flag is lowered (lines 220-223). -/
lemma reachable_camera {s : AppState} (hr : Reachable s) :
    s.isCameraActive = true → s.stream.isSome = true := by
  induction hr with
  | initial => simp [initial]
  | @step s e _ ih =>
    cases e with
    | detectDevices env =>
      simp only [next, detectDevices]
      split
      · split
        · split_ifs <;> exact ih
        · exact ih
      · exact ih
    | setupWebcam env => exact setupWebcam_camera env s
    | connectToServer env =>
      simp only [next, connectToServer]
      split_ifs <;> exact ih
    | toggleTracking env =>
      simp only [next, toggleTracking]
      split_ifs
      · rw [(startWithStream_camera env s).1, (startWithStream_camera env s).2]; exact ih
      · have hsw := setupWebcam_camera env s
        cases hg : env.getUserMedia <;> simp [setupWebcam, hg, quiet, startWithStream_camera]
      · unfold stopBranch
        split <;> exact ih
    | toggleTrackingResumed env =>
      simp only [next, toggleTrackingResumed]
      cases hg : env.getUserMedia <;> simp [setupWebcam, hg, quiet, startWithStream_camera]
    | loadModels env =>
      simp only [next, loadModels]
      split_ifs
      · exact ih
      · split <;> exact ih
    | switchModel env n =>
      simp only [next, switchModel]
      split_ifs
      · exact ih
      · rw [sendIfOpen_state]; exact ih
    | switchExpression env x =>
      simp only [next, switchExpression, sendIfOpen_state]; exact ih
    | switchPosition env x =>
      simp only [next, switchPosition, sendIfOpen_state]; exact ih
    | cleanup => simp [next, cleanup]
    | onopen c =>
      show (setReadyState c .OPEN s).isCameraActive = true →
        (setReadyState c .OPEN s).stream.isSome = true
      rw [(setReadyState_camera c .OPEN s).1, (setReadyState_camera c .OPEN s).2]
      exact ih
    | onmessage d =>
      cases d with
      | none => exact ih
      | some m => cases m <;> exact ih
    | onclose c =>
      show (setReadyState c .CLOSED s).isCameraActive = true →
        (setReadyState c .CLOSED s).stream.isSome = true
      rw [(setReadyState_camera c .CLOSED s).1, (setReadyState_camera c .CLOSED s).2]
      exact ih
    | onerror => exact ih

/-- C10. In every reachable store with `isTracking = false` and no stream, when
`setupWebcam` returns `null`, `toggleTracking` returns without an exception,
sends no command, constructs no socket and leaves every field of the store
equal to its value before the call. -/
theorem toggleTracking_no_camera (env : Env) (s : AppState) (hr : Reachable s)
    (ht : s.isTracking = false) (hst : s.stream = none)
    (hcam : (setupWebcam env s).2 = none) :
    toggleTracking env s = { state := s, sent := [], opened := 0, threw := false } := by
  have hg : env.getUserMedia = none := by
    cases hg : env.getUserMedia with
    | none => rfl
    | some m => simp [setupWebcam, hg] at hcam
  have hc : s.isCameraActive = false := by
    cases hc : s.isCameraActive with
    | false => rfl
    | true => simpa [hst] using reachable_camera hr hc
  simp only [toggleTracking, ht, hst, setupWebcam, hg, quiet, Bool.not_false, if_true,
    Option.isSome_none, Bool.false_eq_true, if_false]
  congr 1
  cases s
  simp_all

/-- C10 (witness). The initial store in a browser without a usable camera. -/
theorem toggleTracking_no_camera_witness :
    Reachable initial ∧ initial.isTracking = false ∧ initial.stream = none ∧
    (setupWebcam noCamera initial).2 = none ∧
    toggleTracking noCamera initial
      = { state := initial, sent := [], opened := 0, threw := false } :=
  ⟨.initial, rfl, rfl, rfl, toggleTracking_no_camera noCamera initial .initial rfl rfl rfl⟩

end App

/-! ## Desktop host: results -/

namespace Host

/-- Function `connectToPython` never spawns and never touches the process handle. -/
lemma connectToPython_spawned (s : HostState) :
    (connectToPython s).spawned = s.spawned ∧
    (connectToPython s).pythonProcess = s.pythonProcess := by
  unfold connectToPython
  split
  · split_ifs <;> exact ⟨rfl, rfl⟩
  · exact ⟨rfl, rfl⟩

/-- Running any batch of timers never spawns and never touches the process handle. -/
lemma foldl_runCallback_spawned (ts : List Timer) (s : HostState) :
    (ts.foldl (fun st t => runCallback st t.callback) s).spawned = s.spawned ∧
    (ts.foldl (fun st t => runCallback st t.callback) s).pythonProcess = s.pythonProcess := by
  induction ts generalizing s with
  | nil => exact ⟨rfl, rfl⟩
  | cons t ts ih =>
    simp only [List.foldl_cons]
    have h := ih (runCallback s t.callback)
    cases hc : t.callback
    rw [hc] at h
    simp only [runCallback] at h ⊢
    rw [h.1, h.2]
    exact connectToPython_spawned s

/-- The passing of time never spawns. -/
lemma elapse_spawned (ms : Nat) (s : HostState) : (elapse ms s).spawned = s.spawned := by
  unfold elapse
  exact (foldl_runCallback_spawned _ _).1

/-- No event other than `createWindow` spawns. -/
lemma step_spawned (s : HostState) (e : Event) (he : e ≠ .createWindow) :
    (step s e).spawned = s.spawned := by
  cases e with
  | createWindow => exact absurd rfl he
  | processClose code => rfl
  | socketOpen =>
    simp only [step, onSocketOpen]
    split <;> rfl
  | socketError => rfl
  | socketMessage => rfl
  | socketClose =>
    simp only [step, onSocketClose, setTimeout]
    split <;> rfl
  | elapse ms => exact elapse_spawned ms s
  | controlTracking b =>
    simp only [step, controlTracking]
    split_ifs <;> rfl
  | setModel p =>
    simp only [step, setModel]
    split_ifs <;> rfl
  | windowAllClosed =>
    simp only [step, windowAllClosed]
    split <;> rfl

/-- No sequence of events without `createWindow` spawns. -/
lemma run_spawned (es : List Event) (s : HostState) (hes : ∀ e ∈ es, e ≠ .createWindow) :
    (run s es).spawned = s.spawned := by
  induction es generalizing s with
  | nil => rfl
  | cons e es ih =>
    have h1 := step_spawned s e (hes e (List.mem_cons_self e es))
    have h2 := ih (step s e) (fun x hx => hes x (List.mem_cons_of_mem e hx))
    simp only [run, List.foldl_cons] at h2 ⊢
    rw [h2, h1]

/-- C9 (counterexample). The backend was spawned once and its handle is held; the process
closes with code 1 and the 1000 ms pass: the handle is cleared, the one timer
has run, and `spawn` has still been called only once, also ten seconds later. -/
theorem processClose_no_respawn :
    started.pythonProcess = some 0 ∧ started.spawned = 1 ∧
    (run started [.processClose 1, .elapse 1000]).pythonProcess = none ∧
    (run started [.processClose 1, .elapse 1000]).timers = [] ∧
    (run started [.processClose 1, .elapse 1000]).spawned = 1 ∧
    (run started [.processClose 1, .elapse 1000, .elapse 10000]).spawned = 1 := by
  decide

/-- C9 (as amended). For every host state and every exit code, the process event `close`
clears the handle and sets exactly one timer, due 1000 ms later, that runs
`connectToPython`; it calls `spawn` neither then nor later: through every
sequence of further events without a new `createWindow` the number of
`spawn` calls stays what it was before the event. -/
theorem processClose_clears_and_reconnects (s : HostState) (code : Int) (es : List Event)
    (hes : ∀ e ∈ es, e ≠ .createWindow) :
    (onProcessClose code s).pythonProcess = none ∧
    (onProcessClose code s).timers
      = s.timers ++ [{ due := s.now + 1000, callback := .connectToPython }] ∧
    (onProcessClose code s).spawned = s.spawned ∧
    (run (onProcessClose code s) es).spawned = s.spawned := by
  refine ⟨rfl, rfl, rfl, ?_⟩
  rw [run_spawned es _ hes]
  rfl

/-- C9 (witness). The started host, exit code 1, and the delay passing twice over. -/
theorem processClose_clears_and_reconnects_witness :
    (∀ e ∈ [Event.elapse 1000, Event.socketClose, Event.elapse 1000], e ≠ Event.createWindow) ∧
    (onProcessClose 1 started).pythonProcess = none ∧
    (onProcessClose 1 started).timers = [{ due := 1000, callback := .connectToPython }] ∧
    (run (onProcessClose 1 started) [.elapse 1000, .socketClose, .elapse 1000]).spawned
      = started.spawned :=
  have hes : ∀ e ∈ [Event.elapse 1000, Event.socketClose, Event.elapse 1000],
      e ≠ Event.createWindow := by decide
  have h := processClose_clears_and_reconnects started 1
    [.elapse 1000, .socketClose, .elapse 1000] hes
  ⟨hes, h.1, h.2.1, h.2.2.2⟩

end Host

/-! ## App store: model list and connection state -/

namespace App

/-- The test of line 171 is membership of the name in `modelNames`. -/
lemma any_name_iff (s : AppState) (modelName : String) :
    s.live2dModels.any (fun m => m.name = modelName) = true ↔ modelName ∈ modelNames s := by
  simp only [List.any_eq_true, decide_eq_true_eq, modelNames, List.mem_map]

/-- An unknown name is turned away at line 171 before anything is written. -/
lemma switchModel_of_not_mem (env : Env) (s : AppState) (modelName : String)
    (h : modelName ∉ modelNames s) : switchModel env modelName s = quiet s := by
  have hany : s.live2dModels.any (fun m => m.name = modelName) = false := by
    rw [← Bool.not_eq_true, any_name_iff]
    exact h
  simp [switchModel, hany]

/-- A known name is stored in `selectedModel`, and nothing else in the store changes. -/
lemma switchModel_of_mem (env : Env) (s : AppState) (modelName : String)
    (h : modelName ∈ modelNames s) :
    (switchModel env modelName s).state = { s with selectedModel := some modelName } := by
  have hany : s.live2dModels.any (fun m => m.name = modelName) = true :=
    (any_name_iff s modelName).mpr h
  simp only [switchModel, hany, Bool.not_true, Bool.false_eq_true, if_false, sendIfOpen_state]

/-- C11. For every model list and every name that no model in the list bears,
`switchModel` returns without sending anything and leaves the whole store,
`selectedModel` included, as it was; for a name that is in the list
`selectedModel` becomes that name and no other field of the store changes. -/
theorem switchModel_validates (env : Env) (s : AppState) (modelName : String) :
    (modelName ∉ modelNames s →
      switchModel env modelName s = { state := s, sent := [], opened := 0, threw := false }) ∧
    (modelName ∈ modelNames s →
      (switchModel env modelName s).state = { s with selectedModel := some modelName } ∧
      (switchModel env modelName s).state.selectedModel = some modelName) := by
  refine ⟨fun h => switchModel_of_not_mem env s modelName h, fun h => ?_⟩
  have hs := switchModel_of_mem env s modelName h
  exact ⟨hs, by rw [hs]⟩

/-- C11 (witness). With the models A and B known, the name C is turned away and the name
A is selected. -/
theorem switchModel_validates_witness :
    "C" ∉ modelNames (handleServerMessage (.models_list twoModels) initial) ∧
    switchModel browser "C" (handleServerMessage (.models_list twoModels) initial)
      = { state := handleServerMessage (.models_list twoModels) initial, sent := [],
          opened := 0, threw := false } ∧
    "A" ∈ modelNames (handleServerMessage (.models_list twoModels) initial) ∧
    (switchModel browser "A"
      (handleServerMessage (.models_list twoModels) initial)).state.selectedModel = some "A" :=
  have hC : "C" ∉ modelNames (handleServerMessage (.models_list twoModels) initial) := by
    decide
  have hA : "A" ∈ modelNames (handleServerMessage (.models_list twoModels) initial) := by
    decide
  ⟨hC,
    (switchModel_validates browser (handleServerMessage (.models_list twoModels) initial)
      "C").1 hC,
    hA,
    ((switchModel_validates browser (handleServerMessage (.models_list twoModels) initial)
      "A").2 hA).2⟩

/-- C12. For every list of model descriptors, once `handleServerMessage` has
received it as a `models_list` message, `modelNames` is the list of its names
in the same order and `switchModel` accepts every one of them:
`selectedModel` becomes that name. -/
theorem models_list_selectable (env : Env) (models : List ModelDescriptor) (s : AppState) :
    modelNames (handleServerMessage (.models_list models) s) = models.map (·.name) ∧
    ∀ m ∈ models,
      (switchModel env m.name (handleServerMessage (.models_list models) s)).state.selectedModel
        = some m.name := by
  refine ⟨rfl, fun m hm => ?_⟩
  have hmem : m.name ∈ modelNames (handleServerMessage (.models_list models) s) :=
    List.mem_map.mpr ⟨m, hm, rfl⟩
  rw [switchModel_of_mem env _ _ hmem]

/-- C12 (witness). The scenario of the specification: the list with the models A and B
gives the names A, B in that order, and A can then be selected. -/
theorem models_list_selectable_witness :
    ({ name := "A", path := none } : ModelDescriptor) ∈ twoModels ∧
    modelNames (handleServerMessage (.models_list twoModels) initial) = ["A", "B"] ∧
    (switchModel browser "A"
      (handleServerMessage (.models_list twoModels) initial)).state.selectedModel = some "A" :=
  ⟨by decide,
    (models_list_selectable browser twoModels initial).1,
    (models_list_selectable browser twoModels initial).2 { name := "A", path := none }
      (by decide)⟩

/-- Over an open channel lines 123-141 do not go through `connectToServer`. -/
lemma startWithStream_status_open (env : Env) (s : AppState) (h : isOpen s = true) :
    (startWithStream env s).state.serverStatus = s.serverStatus := by
  simp only [startWithStream, h, Bool.not_true, Bool.false_eq_true, if_false]
  split <;> rfl

/-- Lines 123-141: `serverStatus` moves exactly when `connectToServer` is called. -/
lemma startWithStream_status_eq (env : Env) (s : AppState) :
    (startWithStream env s).state.serverStatus
      = if !isOpen s then (if env.constructorThrows then .error else .connecting)
        else s.serverStatus := by
  cases h : isOpen s
  · simpa using startWithStream_status env s h
  · simpa using startWithStream_status_open env s h

/-- C13. The initial `serverStatus` is `disconnected`; in every store it is one of
`disconnected`, `connecting`, `connected`, `error`; and for every store
and every event the value afterwards is: `connecting` after
`connectToServer` (`error` when constructing the socket throws), `connected`
after the open event, `disconnected` after the close event, `error` after
the error event, the outcome of `connectToServer` after a `toggleTracking`
that reaches its call (start branch, stream at hand, channel not open), and
the value before in every other case, `switchModel`, `switchExpression`,
`switchPosition`, `handleServerMessage` and `cleanup` included. -/
theorem serverStatus_transitions (s : AppState) (e : Event) :
    initial.serverStatus = .disconnected ∧
    (s.serverStatus = .disconnected ∨ s.serverStatus = .connecting ∨
      s.serverStatus = .connected ∨ s.serverStatus = .error) ∧
    (next s e).serverStatus =
      (match e with
        | .connectToServer env => if env.constructorThrows then .error else .connecting
        | .onopen _ => .connected
        | .onclose _ => .disconnected
        | .onerror => .error
        | .toggleTracking env =>
          if !s.isTracking && (s.stream.isSome || env.getUserMedia.isSome) && !isOpen s then
            (if env.constructorThrows then .error else .connecting)
          else s.serverStatus
        | .toggleTrackingResumed env =>
          if env.getUserMedia.isSome && !isOpen s then
            (if env.constructorThrows then .error else .connecting)
          else s.serverStatus
        | .detectDevices _ => s.serverStatus
        | .setupWebcam _ => s.serverStatus
        | .loadModels _ => s.serverStatus
        | .switchModel _ _ => s.serverStatus
        | .switchExpression _ _ => s.serverStatus
        | .switchPosition _ _ => s.serverStatus
        | .cleanup => s.serverStatus
        | .onmessage _ => s.serverStatus) := by
  refine ⟨rfl, ?_, ?_⟩
  · cases s.serverStatus <;> simp
  · cases e with
    | detectDevices env =>
      simp only [next, detectDevices]
      split
      · split
        · split_ifs <;> rfl
        · rfl
      · rfl
    | setupWebcam env =>
      simp only [next, setupWebcam]
      split <;> rfl
    | connectToServer env =>
      simp only [next, connectToServer]
      split_ifs <;> rfl
    | toggleTracking env =>
      simp only [next]
      cases ht : s.isTracking
      · cases hst : s.stream with
        | some m =>
          simp only [toggleTracking, ht, hst, Option.isSome_some, Bool.not_false, if_true,
            Bool.true_or, Bool.true_and]
          exact startWithStream_status_eq env s
        | none =>
          cases hg : env.getUserMedia with
          | some m =>
            simp only [toggleTracking, ht, hst, setupWebcam, hg, Option.isSome_none,
              Option.isSome_some, Bool.not_false, if_true, Bool.false_or, Bool.true_and,
              Bool.false_eq_true, if_false]
            rw [startWithStream_status_eq]
            rfl
          | none =>
            simp [toggleTracking, ht, hst, setupWebcam, hg, quiet]
      · simp only [toggleTracking, ht, Bool.not_true, Bool.false_eq_true, if_false,
          stopBranch, Bool.false_and]
        split <;> rfl
    | toggleTrackingResumed env =>
      simp only [next]
      cases hg : env.getUserMedia with
      | some m =>
        simp only [toggleTrackingResumed, setupWebcam, hg, Option.isSome_some, Bool.true_and]
        rw [startWithStream_status_eq]
        rfl
      | none =>
        simp [toggleTrackingResumed, setupWebcam, hg, quiet]
    | loadModels env =>
      simp only [next, loadModels]
      split_ifs
      · rfl
      · split <;> rfl
    | switchModel env n =>
      simp only [next, switchModel]
      split_ifs
      · rfl
      · rw [sendIfOpen_state]
    | switchExpression env x => simp only [next, switchExpression, sendIfOpen_state]
    | switchPosition env x => simp only [next, switchPosition, sendIfOpen_state]
    | cleanup =>
      simp only [next, cleanup]
      split
      · split_ifs <;> rfl
      · rfl
    | onopen c => rfl
    | onmessage d =>
      cases d with
      | none => rfl
      | some m => cases m <;> rfl
    | onclose c => rfl
    | onerror => rfl

end App

/-! ## Detection loop: overlapping loops -/

namespace FaceDetection

/-- A second `startDetection` while the loop runs is turned away by line 21. -/
lemma startDetection_while_running (cb : Nat) (s : LoopState) (h : s.isRunning = true) :
    startDetection cb s = (s, false) := by
  simp [startDetection, h]

/-- C14 (the code breaks it). A loop is started with callback 7, stopped while its first
`estimateFaces` call is outstanding, and started again with callback 8: the
guard of line 21 lets the second start through because `isRunning` is
`false` again, so two `estimateFaces` calls are outstanding at once; when
both have settled two animation frames are pending, and when both frames
have run two calls are outstanding again: two chains of `detectFrame`
cycles run side by side. -/
theorem two_loops_after_restart :
    stoppedInFlight.isRunning = false ∧ stoppedInFlight.inFlight = 1 ∧
    (startDetection 8 stoppedInFlight).2 = true ∧
    restartedInFlight.isRunning = true ∧ restartedInFlight.inFlight = 2 ∧
    (run restartedInFlight
      [.resolved (.predictions []), .resolved (.predictions [])]).1.scheduled = [1, 2] ∧
    (run restartedInFlight
      [.resolved (.predictions []), .resolved (.predictions []),
        .frame 1, .frame 2]).1.inFlight = 2 := by
  decide

end FaceDetection

/-! ## Tracking store: the shape of `parameters` -/

namespace Tracking

open JS

/-- What `updateFaceData` can do to the seven fields: three it never writes, and
each of the other four is either left alone or set to a `toFixed(3)` string. -/
lemma updateFaceData_fields (w : Browser) (faceData : Option FaceData) (s : TrackingState) :
    (updateFaceData w faceData s).state.parameters.eyeX = s.parameters.eyeX ∧
    (updateFaceData w faceData s).state.parameters.eyebrowLeft = s.parameters.eyebrowLeft ∧
    (updateFaceData w faceData s).state.parameters.eyebrowRight = s.parameters.eyebrowRight ∧
    ((updateFaceData w faceData s).state.parameters.headX = s.parameters.headX ∨
      ∃ x, (updateFaceData w faceData s).state.parameters.headX = .str (toFixed3 x)) ∧
    ((updateFaceData w faceData s).state.parameters.headY = s.parameters.headY ∨
      ∃ x, (updateFaceData w faceData s).state.parameters.headY = .str (toFixed3 x)) ∧
    ((updateFaceData w faceData s).state.parameters.eyeY = s.parameters.eyeY ∨
      ∃ x, (updateFaceData w faceData s).state.parameters.eyeY = .str (toFixed3 x)) ∧
    ((updateFaceData w faceData s).state.parameters.mouth = s.parameters.mouth ∨
      ∃ x, (updateFaceData w faceData s).state.parameters.mouth = .str (toFixed3 x)) := by
  cases faceData with
  | none => exact ⟨rfl, rfl, rfl, Or.inl rfl, Or.inl rfl, Or.inl rfl, Or.inl rfl⟩
  | some fd =>
    simp only [updateFaceData]
    split_ifs
    · split
      · split
        · split
          · exact ⟨rfl, rfl, rfl, Or.inr ⟨_, rfl⟩, Or.inr ⟨_, rfl⟩, Or.inr ⟨_, rfl⟩,
              Or.inr ⟨_, rfl⟩⟩
          · exact ⟨rfl, rfl, rfl, Or.inr ⟨_, rfl⟩, Or.inr ⟨_, rfl⟩, Or.inr ⟨_, rfl⟩,
              Or.inl rfl⟩
        · exact ⟨rfl, rfl, rfl, Or.inr ⟨_, rfl⟩, Or.inr ⟨_, rfl⟩, Or.inl rfl, Or.inl rfl⟩
      · exact ⟨rfl, rfl, rfl, Or.inr ⟨_, rfl⟩, Or.inr ⟨_, rfl⟩, Or.inl rfl, Or.inl rfl⟩
    · exact ⟨rfl, rfl, rfl, Or.inr ⟨_, rfl⟩, Or.inr ⟨_, rfl⟩, Or.inl rfl, Or.inl rfl⟩

/-- C15 (counterexample). One `updateFaceData` with the seven scenario landmarks from the
initial store: the store is reachable, and `headX`, `headY`, `eyeY` and
`mouth` hold strings, not numbers. -/
theorem parameters_hold_strings :
    7 ≤ scenarioFace.landmarks.length ∧
    afterScenarioFace = apply initial (.updateFaceData smallWindow (some scenarioFace)) ∧
    Reachable afterScenarioFace ∧
    afterScenarioFace.parameters.headX = .str "0.333" ∧
    afterScenarioFace.parameters.headY = .str "0.500" ∧
    afterScenarioFace.parameters.eyeY = .str "0.500" ∧
    afterScenarioFace.parameters.mouth = .str "1.000" ∧
    (∀ q : ℚ, afterScenarioFace.parameters.headX ≠ .num q) := by
  refine ⟨by decide, rfl, .step _ .initial, ?_⟩
  rw [afterScenarioFace_eq]
  simp

/-- C15 (as amended). In every store reachable from the initial one by any sequence of
`startTracking`, `stopTracking`, `resetParameters`, `updateFps` and
`updateFaceData` (with any argument), the seven fields of `parameters` are
all there, `eyeX`, `eyebrowLeft` and `eyebrowRight` are the number 0, and
each of `headX`, `headY`, `eyeY` and `mouth` is the number 0 or a string
returned by `toFixed(3)`. -/
theorem reachable_parameters (s : TrackingState) (hr : Reachable s) :
    s.parameters.eyeX = .num 0 ∧ s.parameters.eyebrowLeft = .num 0 ∧
    s.parameters.eyebrowRight = .num 0 ∧
    (s.parameters.headX = .num 0 ∨ ∃ x, s.parameters.headX = .str (toFixed3 x)) ∧
    (s.parameters.headY = .num 0 ∨ ∃ x, s.parameters.headY = .str (toFixed3 x)) ∧
    (s.parameters.eyeY = .num 0 ∨ ∃ x, s.parameters.eyeY = .str (toFixed3 x)) ∧
    (s.parameters.mouth = .num 0 ∨ ∃ x, s.parameters.mouth = .str (toFixed3 x)) := by
  induction hr with
  | initial => exact ⟨rfl, rfl, rfl, Or.inl rfl, Or.inl rfl, Or.inl rfl, Or.inl rfl⟩
  | @step s a _ ih =>
    cases a with
    | startTracking => exact ⟨rfl, rfl, rfl, Or.inl rfl, Or.inl rfl, Or.inl rfl, Or.inl rfl⟩
    | stopTracking => exact ⟨rfl, rfl, rfl, Or.inl rfl, Or.inl rfl, Or.inl rfl, Or.inl rfl⟩
    | resetParameters => exact ⟨rfl, rfl, rfl, Or.inl rfl, Or.inl rfl, Or.inl rfl, Or.inl rfl⟩
    | updateFps fps => exact ih
    | updateFaceData w fd =>
      obtain ⟨h1, h2, h3, h4, h5, h6, h7⟩ := updateFaceData_fields w fd s
      obtain ⟨i1, i2, i3, i4, i5, i6, i7⟩ := ih
      simp only [apply]
      refine ⟨h1.trans i1, h2.trans i2, h3.trans i3, ?_, ?_, ?_, ?_⟩
      · rcases h4 with h | ⟨x, h⟩
        · rw [h]; exact i4
        · exact Or.inr ⟨x, h⟩
      · rcases h5 with h | ⟨x, h⟩
        · rw [h]; exact i5
        · exact Or.inr ⟨x, h⟩
      · rcases h6 with h | ⟨x, h⟩
        · rw [h]; exact i6
        · exact Or.inr ⟨x, h⟩
      · rcases h7 with h | ⟨x, h⟩
        · rw [h]; exact i7
        · exact Or.inr ⟨x, h⟩

/-- C15 (witness). The store that has mapped the scenario face. -/
theorem reachable_parameters_witness :
    Reachable afterScenarioFace ∧
    afterScenarioFace.parameters.eyeX = .num 0 ∧
    afterScenarioFace.parameters.eyebrowLeft = .num 0 ∧
    afterScenarioFace.parameters.eyebrowRight = .num 0 ∧
    (afterScenarioFace.parameters.headX = .num 0 ∨
      ∃ x, afterScenarioFace.parameters.headX = .str (toFixed3 x)) :=
  have hr : Reachable afterScenarioFace := .step _ .initial
  ⟨hr, (reachable_parameters afterScenarioFace hr).1,
    (reachable_parameters afterScenarioFace hr).2.1,
    (reachable_parameters afterScenarioFace hr).2.2.1,
    (reachable_parameters afterScenarioFace hr).2.2.2.1⟩

end Tracking
